import Mathlib

set_option maxRecDepth 8192

/-!
Verification of the RespawnMetrics multi-source dataset reconciliation
pipeline. The definitions below are a shallow embedding of the Python
sources `respawn_data_cleaning/clean_raw_datasets.py`,
`respawn_data_cleaning/merge_gaming_datasets.py`,
`respawn_data_cleaning/prepare_clean_data.py` and
`respawn_database/create_database.py`. Tables are lists of association
rows, cell values are an inductive `Value` (string / rational number /
null, mirroring the scalar cells pandas reads from CSV), machine floats
are modelled by `ℚ` (every literal the pipeline manipulates —
0.5, 2.0, 3.0, 4.0, 6.0, clip bounds — is exactly representable), and the
module-level `try/except` of each cleaning function is modelled with
`Except`/`Option`.
-/

namespace RespawnMetrics

/-! ### Characters and strings: Python `str.lower`, `in`, `re` digit runs -/

/-- ASCII lowercasing of one character, as Python `str.lower` acts on the
ASCII range: `A`–`Z` are shifted by 32, everything else is unchanged. -/
def lowerChar (c : Char) : Char :=
  if 65 ≤ c.toNat ∧ c.toNat ≤ 90 then Char.ofNat (c.toNat + 32) else c

/-- Python `s.lower()` restricted to the ASCII fragment. -/
def lowerStr (s : String) : String :=
  String.mk (s.data.map lowerChar)

/-- Does the character list `p` occur at the head of `l`? -/
def headMatches : List Char → List Char → Bool
  | _, [] => true
  | [], _ :: _ => false
  | c :: cs, p :: ps => c = p && headMatches cs ps

/-- Does the character list `p` occur contiguously anywhere inside `l`?
This is Python's `p in l` substring test. -/
def containsSeq : List Char → List Char → Bool
  | [], p => headMatches [] p
  | c :: cs, p => headMatches (c :: cs) p || containsSeq cs p

/-- Python's substring operator `pat in s`. -/
def containsStr (s pat : String) : Bool :=
  containsSeq s.data pat.data

/-- First maximal run of ASCII digits in a character list, if any:
the `numbers[0]` of Python's `re.findall(r'\d+', s)`, and likewise the
first (and only used) capture of `str.extract(r'(\d+)')`. -/
def firstDigitRun : List Char → Option (List Char)
  | [] => none
  | c :: rest =>
    if c.isDigit then some (c :: rest.takeWhile Char.isDigit)
    else firstDigitRun rest

/-- Numeric value of a digit character. -/
def digitVal (c : Char) : Nat := c.toNat - 48

/-- Numeric value of a digit run. -/
def digitsVal (l : List Char) : Nat :=
  l.foldl (fun a c => 10 * a + digitVal c) 0

/-- First embedded natural number of a string
(`int(re.findall(r'\d+', s)[0])` when a digit occurs). -/
def extractFirstNat (s : String) : Option Nat :=
  (firstDigitRun s.data).map digitsVal

/-! ### Cell values -/

/-- One scalar cell as pandas reads it from a CSV: a string, a number, or
the NaN/None missing marker. -/
inductive Value where
  | str (s : String)
  | num (q : ℚ)
  | bool (b : Bool)
  | null
  deriving DecidableEq, Repr

/-- Is the cell a (non-null) string? pandas gives a column `object` dtype
exactly when it holds such cells. -/
def Value.isStr : Value → Bool
  | .str _ => true
  | _ => false

/-- Python `str(v)` for the cell values the pipeline stringifies.
Rationals with denominator 1 print as integers; other rationals use a
fraction rendering (the pipeline only ever stringifies strings and
integer-valued cells on the paths under verification). -/
def Value.pyStr : Value → String
  | .str s => s
  | .num q => if q.den = 1 then toString q.num else toString q.num ++ "/" ++ toString q.den
  | .bool b => if b then "True" else "False"
  | .null => "nan"

/-! ### Free-text parsers and scorers (`clean_raw_datasets.py`) -/

/-- `parse_age` (lines 75–83 and 226–234): missing cells default to 22;
otherwise the first embedded digit run is the age; with no digits the
default 22 is returned. -/
def parse_age (v : Value) : Int :=
  match v with
  | .null => 22
  | v =>
    match extractFirstNat v.pyStr with
    | some n => (n : Int)
    | none => 22

/-- `score_likert` (lines 106–119, anxiety): case-insensitive substring
tests in source order with a default of 2 for missing or unmatched
responses. -/
def score_likert (v : Value) : Int :=
  match v with
  | .null => 2
  | v =>
    let s := lowerStr v.pyStr
    if containsStr s "never" || containsStr s "not at all" then 0
    else if containsStr s "several" || containsStr s "sometimes" then 1
    else if containsStr s "more than half" || containsStr s "often" then 2
    else if containsStr s "nearly every" || containsStr s "always" then 3
    else 2

/-- `score_aggression_likert` (lines 251–266): ordered case-insensitive
substring tests, `strongly disagree` before `disagree` and
`strongly agree` before `agree`, default 2. -/
def score_aggression_likert (v : Value) : Int :=
  match v with
  | .null => 2
  | v =>
    let s := lowerStr v.pyStr
    if containsStr s "strongly disagree" then 0
    else if containsStr s "disagree" then 1
    else if containsStr s "neither" then 2
    else if containsStr s "strongly agree" then 4
    else if containsStr s "agree" then 3
    else 2

/-- `parse_gaming_hours` (lines 198–213, aggression): phrase table for the
survey's frequency answers, default 2.0. -/
def parse_gaming_hours (v : Value) : ℚ :=
  match v with
  | .null => 2
  | v =>
    let s := lowerStr v.pyStr
    if containsStr s "more than 5" then 6
    else if containsStr s "more than 3" then 4
    else if containsStr s "more than 2" then 3
    else if containsStr s "more than 1" then 2
    else if containsStr s "less than 1" then 1/2
    else 2

/-! ### Tables and pandas column operations -/

/-- One table row: an association list from column label to cell value. -/
abbrev Row := List (String × Value)

/-- A pandas DataFrame as the pipeline uses it: an ordered column list and
a list of rows. -/
structure Table where
  cols : List String
  rows : List Row
  deriving DecidableEq, Repr

/-- The values of column `c`, one per row (null when the row lacks the
label). -/
def colVals (t : Table) (c : String) : List Value :=
  t.rows.map (fun r => (r.lookup c).getD Value.null)

/-- Errors a pandas expression can raise inside a cleaning function; they
are swallowed by the function-level `except` blocks. -/
inductive PdError where
  | strAccessorError
  deriving DecidableEq, Repr

/-- The `.str` accessor. A CSV-read column is `object` dtype (and `.str`
succeeds, mapping non-string cells to NaN) exactly when it is empty or
holds at least one string cell; on an all-numeric/all-null column pandas
raises `AttributeError`, here `strAccessorError`. -/
def strAccess (col : List Value) : Except PdError (List (Option String)) :=
  if col.isEmpty || col.any Value.isStr then
    Except.ok (col.map (fun v => match v with | .str s => some s | _ => none))
  else Except.error .strAccessorError

/-- `pd.to_numeric(x.str.extract(r'(\d+)')[0], errors='coerce')` applied
to one cell of the string-accessed column. -/
def extractHours (os : Option String) : Option ℚ :=
  os.bind (fun s => (extractFirstNat s).map (fun n => (n : ℚ)))

/-- Insertion into a sorted list, for the median. -/
def insertSorted (x : ℚ) : List ℚ → List ℚ
  | [] => [x]
  | y :: ys => if x ≤ y then x :: y :: ys else y :: insertSorted x ys

/-- Sorting by insertion. -/
def sortQ (l : List ℚ) : List ℚ := l.foldr insertSorted []

/-- `Series.median()` over the non-null values: none when there are no
values, the middle element for odd counts, the mean of the two middle
elements for even counts. -/
def median (l : List ℚ) : Option ℚ :=
  let s := sortQ l
  let n := s.length
  if n = 0 then none
  else if n % 2 = 1 then s[n / 2]?
  else
    match s[n / 2 - 1]?, s[n / 2]? with
    | some a, some b => some ((a + b) / 2)
    | _, _ => none

/-- `Series.fillna(Series.median())`: nulls are replaced by the column
median of the non-null values (and stay null when every value is null,
since the median of an empty series is NaN). -/
def fillnaMedian (col : List (Option ℚ)) : List (Option ℚ) :=
  let m := median (col.filterMap id)
  col.map (fun o => match o with | some h => some h | none => m)

/-- `DataFrame.drop_duplicates(subset=key, keep='first')`: generic
first-occurrence deduplication by a key, with the keys seen so far. -/
def dedupByKeyAux {α β : Type} [DecidableEq β] (key : α → β)
    (seen : List β) : List α → List α
  | [] => []
  | x :: xs =>
    if key x ∈ seen then dedupByKeyAux key seen xs
    else x :: dedupByKeyAux key (key x :: seen) xs

/-- First-occurrence deduplication by a key. -/
def dedupByKey {α β : Type} [DecidableEq β] (key : α → β) (l : List α) :
    List α :=
  dedupByKeyAux key [] l

/-- `DataFrame.drop_duplicates()` over whole rows. -/
def dedupFirst {α : Type} [DecidableEq α] (l : List α) : List α :=
  dedupByKey id l

/-- Pairing of four equal-length columns into rows. -/
def zip4 {α β γ δ : Type} : List α → List β → List γ → List δ →
    List (α × β × γ × δ)
  | a :: as, b :: bs, c :: cs, d :: ds => (a, b, c, d) :: zip4 as bs cs ds
  | _, _, _, _ => []

/-! ### The anxiety cleaner (`clean_gaming_anxiety_data`, lines 22–155) -/

/-- Column label probed for ages. -/
def ageColLabel : String := "What is your age?"

/-- Column label probed for daily hours in the anxiety survey. -/
def anxietyHoursColLabel : String := "How many hours do you play video games in a day?"

/-- Column label probed for daily hours in the aggression survey (note the
doubled space, as in the source). -/
def aggressionHoursColLabel : String := "How many hours do you play Video Games in  a day?"

/-- Column label probed for gender. -/
def genderColLabel : String := "Gender"

/-- Keywords selecting anxiety Likert columns (line 103). -/
def anxietyKeywords : List String := ["anxious", "worry", "nervous", "afraid"]

/-- Keywords selecting aggression Likert columns (lines 247–248). -/
def aggressionKeywords : List String :=
  ["angry", "temper", "hit", "fight", "violence", "aggressive", "mad", "argue"]

/-- Does the lowercased column name contain one of the keywords? -/
def colMatchesKeywords (kws : List String) (c : String) : Bool :=
  kws.any (fun k => containsStr (lowerStr c) k)

/-- Per-respondent anxiety score (lines 105–131): sum of `score_likert`
over the first 7 matched question columns, 7 when no column matched. -/
def anxietyScoreOfRow (qs : List String) (r : Row) : Int :=
  if qs.isEmpty then 7
  else ((qs.take 7).map (fun c => score_likert ((r.lookup c).getD .null))).sum

/-- Per-respondent aggression score (lines 250–278): sum of
`score_aggression_likert` over the first 15 matched question columns, 30
when no column matched. -/
def aggressionScoreOfRow (qs : List String) (r : Row) : Int :=
  if qs.isEmpty then 30
  else ((qs.take 15).map (fun c => score_aggression_likert ((r.lookup c).getD .null))).sum

/-- A reconciled anxiety row, with `df_clean`'s columns. -/
structure AnxietyRow where
  age : Int
  gaming_hours_daily : Option ℚ
  gender : Option String
  anxiety_score : Int
  deriving DecidableEq, Repr

/-- Hours/age domain filters shared by both survey cleaners
(lines 137–139 and 284–286); a null value fails both pandas comparisons
and the row is removed. -/
def hoursInRange (h : Option ℚ) : Bool :=
  match h with
  | some q => decide (0 ≤ q) && decide (q ≤ 24)
  | none => false

/-- Age domain filter: `(age >= 10) & (age <= 99)`. -/
def ageInRange (a : Int) : Bool :=
  decide (10 ≤ a) && decide (a ≤ 99)

/-- The real-data branch of `clean_gaming_anxiety_data` (lines 65–139),
as an `Except` computation: a `.str` accessor failure anywhere aborts to
the function-level handler. -/
def cleanAnxietyRows (t : Table) : Except PdError (List AnxietyRow) :=
  (if anxietyHoursColLabel ∈ t.cols then
    (strAccess (colVals t anxietyHoursColLabel)).map (List.map extractHours)
  else pure (List.replicate t.rows.length (some 2))) >>= fun hoursRaw =>
  (if genderColLabel ∈ t.cols then
    (strAccess (colVals t genderColLabel)).map (List.map (Option.map lowerStr))
  else pure (List.replicate t.rows.length (some "unknown"))) >>= fun genders =>
  let ages : List Int :=
    if ageColLabel ∈ t.cols then (colVals t ageColLabel).map parse_age
    else List.replicate t.rows.length 22
  let qs := t.cols.filter (colMatchesKeywords anxietyKeywords)
  let scores := t.rows.map (anxietyScoreOfRow qs)
  let hours := fillnaMedian hoursRaw
  let assembled := (zip4 ages hours genders scores).map
    (fun x => AnxietyRow.mk x.1 x.2.1 x.2.2.1 x.2.2.2)
  let kept := assembled.filter (fun r => hoursInRange r.gaming_hours_daily)
  let kept := kept.filter (fun r => ageInRange r.age)
  pure kept

/-- A reconciled aggression row, with `df_clean`'s columns. -/
structure AggressionRow where
  gaming_hours_daily : Option ℚ
  age : Int
  gender : Option String
  aggression_score : Int
  deriving DecidableEq, Repr

/-- The real-data branch of `clean_gaming_aggression_data`
(lines 188–286). -/
def cleanAggressionRows (t : Table) : Except PdError (List AggressionRow) :=
  (if aggressionHoursColLabel ∈ t.cols then
    pure ((colVals t aggressionHoursColLabel).map (fun v => some (parse_gaming_hours v)))
  else
    match t.cols.filter (fun c => containsStr (lowerStr c) "hour") with
    | c :: _ => (strAccess (colVals t c)).map (List.map extractHours)
    | [] => pure (List.replicate t.rows.length (some 2))) >>= fun hoursRaw =>
  (if genderColLabel ∈ t.cols then
    (strAccess (colVals t genderColLabel)).map (List.map (Option.map lowerStr))
  else pure (List.replicate t.rows.length (some "unknown"))) >>= fun genders =>
  let ages : List Int :=
    if ageColLabel ∈ t.cols then (colVals t ageColLabel).map parse_age
    else List.replicate t.rows.length 22
  let qs := t.cols.filter (colMatchesKeywords aggressionKeywords)
  let scores := t.rows.map (aggressionScoreOfRow qs)
  let hours := fillnaMedian hoursRaw
  let assembled := (zip4 hours ages genders scores).map
    (fun x => AggressionRow.mk x.1 x.2.1 x.2.2.1 x.2.2.2)
  let kept := assembled.filter (fun r => hoursInRange r.gaming_hours_daily)
  let kept := kept.filter (fun r => ageInRange r.age)
  pure kept

/-! ### Synthetic fallback tables (missing-file branches) -/

/-- The numpy global generator, abstracted: each distribution is a pure
function of the seed set by `np.random.seed`, the distribution
parameters, and the draw index. `choice` returns an index into the option
list. -/
structure Rng where
  lognormal : Nat → ℚ → ℚ → Nat → ℚ
  normal : Nat → ℚ → ℚ → Nat → ℚ
  choice : Nat → Nat → Nat → Nat

/-- `np.clip(q, lo, hi)`. -/
def npClip (q lo hi : ℚ) : ℚ := min (max q lo) hi

/-- `.astype(int)`: truncation toward zero. -/
def astypeInt (q : ℚ) : Int := if 0 ≤ q then ⌊q⌋ else -⌊-q⌋

/-- Decimal digit character of `k mod 10`. -/
def padDigit (k : Nat) : Char :=
  Char.ofNat (48 + k % 10)

/-- Python's `f'{n:04d}'` for `n < 10000` (all synthetic ids here use
`1 ≤ n ≤ 1500`): the four decimal digits, zero-padded. -/
def pad4 (n : Nat) : List Char :=
  [padDigit (n / 1000), padDigit (n / 100), padDigit (n / 10), padDigit n]

/-- Gender options of the synthetic survey rows. -/
def genderOptions : List String := ["male", "female", "other"]

/-- Row `i` (0-based) of the synthetic anxiety table (lines 53–64):
seed 42, ids `A0001…`, hours clipped to `[0.1, 12]`, anxiety score to
`[1, 10]`, age to `[13, 65]` then cast to int. -/
def anxietySynthRow (rng : Rng) (i : Nat) : Row :=
  [("participant_id", .str (String.mk ('A' :: pad4 (i + 1)))),
   ("gaming_hours_daily", .num (npClip (rng.lognormal 42 1 (1/2) i) (1/10) 12)),
   ("anxiety_score", .num (npClip (rng.normal 42 (9/2) 2 i) 1 10)),
   ("age", .num (astypeInt (npClip (rng.normal 42 25 8 i) 13 65))),
   ("gender", .str (genderOptions.getD (rng.choice 42 3 i % 3) "male"))]

/-- The synthetic anxiety table: 1000 rows. -/
def anxietySynthTable (rng : Rng) : Table :=
  { cols := ["participant_id", "gaming_hours_daily", "anxiety_score", "age", "gender"],
    rows := (List.range 1000).map (anxietySynthRow rng) }

/-- Row `i` of the synthetic aggression table (lines 176–187): seed 43,
ids `AG0001…`, hours clipped to `[0.1, 12]`, aggression score to
`[5, 35]`, age to `[13, 65]` then cast to int. -/
def aggressionSynthRow (rng : Rng) (i : Nat) : Row :=
  [("participant_id", .str (String.mk ('A' :: 'G' :: pad4 (i + 1)))),
   ("gaming_hours_daily", .num (npClip (rng.lognormal 43 (6/5) (3/5) i) (1/10) 12)),
   ("aggression_score", .num (npClip (rng.normal 43 15 5 i) 5 35)),
   ("age", .num (astypeInt (npClip (rng.normal 43 23 7 i) 13 65))),
   ("gender", .str (genderOptions.getD (rng.choice 43 3 i % 3) "male"))]

/-- The synthetic aggression table: 800 rows. -/
def aggressionSynthTable (rng : Rng) : Table :=
  { cols := ["participant_id", "gaming_hours_daily", "aggression_score", "age", "gender"],
    rows := (List.range 800).map (aggressionSynthRow rng) }

/-- Python's `f'{n:05d}'` for `n < 100000`: the five decimal digits,
zero-padded. -/
def pad5 (n : Nat) : List Char :=
  [padDigit (n / 10000), padDigit (n / 1000), padDigit (n / 100),
   padDigit (n / 10), padDigit n]

/-- Genre options of the synthetic 7-scales rows (line 336). -/
def genrePrefOptions : List String :=
  ["Action", "Strategy", "RPG", "Sports", "Puzzle"]

/-- Row `i` of the synthetic 7-scales table (lines 320–345): seed 44, ids
`S0001…`, hours clipped to `[0.1, 15]`, the seven scale scores clipped to
`[1, 5]`, age clipped to `[13, 65]` then cast to int. -/
def sevenScalesSynthRow (rng : Rng) (i : Nat) : Row :=
  [("participant_id", .str (String.mk ('S' :: pad4 (i + 1)))),
   ("gaming_hours_daily", .num (npClip (rng.lognormal 44 (11/10) (7/10) i) (1/10) 15)),
   ("openness_score", .num (npClip (rng.normal 44 (7/2) (4/5) i) 1 5)),
   ("conscientiousness_score", .num (npClip (rng.normal 44 (16/5) (9/10) i) 1 5)),
   ("extraversion_score", .num (npClip (rng.normal 44 3 1 i) 1 5)),
   ("agreeableness_score", .num (npClip (rng.normal 44 (19/5) (7/10) i) 1 5)),
   ("neuroticism_score", .num (npClip (rng.normal 44 (14/5) (11/10) i) 1 5)),
   ("gaming_addiction_score", .num (npClip (rng.normal 44 (5/2) (6/5) i) 1 5)),
   ("social_gaming_score", .num (npClip (rng.normal 44 (31/10) 1 i) 1 5)),
   ("age", .num (astypeInt (npClip (rng.normal 44 26 9 i) 13 65))),
   ("gaming_genre_preference",
    .str (genrePrefOptions.getD (rng.choice 44 5 i % 5) "Action"))]

/-- The synthetic 7-scales table: 1200 rows. -/
def sevenScalesSynthTable (rng : Rng) : Table :=
  { cols := ["participant_id", "gaming_hours_daily", "openness_score",
             "conscientiousness_score", "extraversion_score",
             "agreeableness_score", "neuroticism_score",
             "gaming_addiction_score", "social_gaming_score", "age",
             "gaming_genre_preference"],
    rows := (List.range 1200).map (sevenScalesSynthRow rng) }

/-- Game titles of the synthetic wellbeing rows (lines 391–392). -/
def wellbeingGames : List String :=
  ["Counter-Strike", "Dota 2", "PUBG", "Apex Legends", "Valorant",
   "League of Legends", "Overwatch", "Rocket League", "Fortnite", "Minecraft"]

/-- Row `i` of the synthetic Steam-wellbeing table (lines 386–413):
seed 45, ids `U00001…`, hours played clipped to `[1, 5000]`, the four
1–10 sub-metrics clipped to `[1, 10]`, session length to `[0.5, 12]`,
age to `[13, 65]` then cast to int. -/
def wellbeingSynthRow (rng : Rng) (i : Nat) : Row :=
  [("user_id", .str (String.mk ('U' :: pad5 (i + 1)))),
   ("game_title", .str (wellbeingGames.getD (rng.choice 45 10 i % 10) "Minecraft")),
   ("hours_played", .num (npClip (rng.lognormal 45 4 (3/2) i) 1 5000)),
   ("wellbeing_score", .num (npClip (rng.normal 45 (13/2) 2 i) 1 10)),
   ("stress_level", .num (npClip (rng.normal 45 (21/5) (9/5) i) 1 10)),
   ("social_connection_score", .num (npClip (rng.normal 45 (29/5) (3/2) i) 1 10)),
   ("achievement_satisfaction", .num (npClip (rng.normal 45 6 (17/10) i) 1 10)),
   ("gaming_session_length", .num (npClip (rng.lognormal 45 (3/2) (4/5) i) (1/2) 12)),
   ("age", .num (astypeInt (npClip (rng.normal 45 24 6 i) 13 65)))]

/-- The synthetic wellbeing table: 1500 rows. -/
def wellbeingSynthTable (rng : Rng) : Table :=
  { cols := ["user_id", "game_title", "hours_played", "wellbeing_score",
             "stress_level", "social_connection_score",
             "achievement_satisfaction", "gaming_session_length", "age"],
    rows := (List.range 1500).map (wellbeingSynthRow rng) }

/-- Genre options of the synthetic Steam-games rows (line 459). -/
def steamGenreOptions : List String :=
  ["Action", "Adventure", "Strategy", "RPG", "Simulation", "Sports",
   "Racing", "Puzzle"]

/-- Developer options of the synthetic Steam-games rows (line 460). -/
def steamDeveloperOptions : List String :=
  ["Valve", "Riot Games", "Blizzard", "Epic Games", "EA Sports", "Ubisoft",
   "Bethesda"]

/-- The `[True, False]` option list of the two boolean draws. -/
def boolOptions : List Bool := [true, false]

/-- Row `i` of the synthetic Steam-games table (lines 454–478): seed 46,
ids `G00001…`, names `Game_1…`, price clipped to `[0, 100]`, metacritic
to `[30, 100]`, player count to `[100, 1000000]` then cast to int,
release year drawn from `randint(2010, 2024)` (so `2010…2023`), and two
boolean columns. The second boolean call's draws sit 500 positions later
in the seeded stream, hence the shifted index. -/
def steamGamesSynthRow (rng : Rng) (i : Nat) : Row :=
  [("game_id", .str (String.mk ('G' :: pad5 (i + 1)))),
   ("name", .str ("Game_" ++ toString (i + 1))),
   ("genre", .str (steamGenreOptions.getD (rng.choice 46 8 i % 8) "Action")),
   ("developer", .str (steamDeveloperOptions.getD (rng.choice 46 7 i % 7) "Valve")),
   ("price", .num (npClip (rng.lognormal 46 3 1 i) 0 100)),
   ("metacritic_score", .num (npClip (rng.normal 46 75 15 i) 30 100)),
   ("player_count", .num (astypeInt (npClip (rng.lognormal 46 8 2 i) 100 1000000))),
   ("release_year", .num ((2010 + rng.choice 46 14 i % 14 : Nat) : ℚ)),
   ("is_multiplayer", .bool (boolOptions.getD (rng.choice 46 2 i % 2) true)),
   ("has_microtransactions",
    .bool (boolOptions.getD (rng.choice 46 2 (500 + i) % 2) true))]

/-- The synthetic Steam-games table: 500 rows. -/
def steamGamesSynthTable (rng : Rng) : Table :=
  { cols := ["game_id", "name", "genre", "developer", "price",
             "metacritic_score", "player_count", "release_year",
             "is_multiplayer", "has_microtransactions"],
    rows := (List.range 500).map (steamGamesSynthRow rng) }

/-- The five dataset kinds `clean_raw_datasets.py` handles. -/
inductive DatasetKind where
  | anxiety
  | aggression
  | sevenScales
  | wellbeing
  | steamGames
  deriving DecidableEq, Repr

/-- All five kinds. -/
def allKinds : List DatasetKind :=
  [.anxiety, .aggression, .sevenScales, .wellbeing, .steamGames]

/-- The fixed `np.random.seed` of each kind's synthetic fallback
(lines 53, 176, 323, 389, 457). -/
def syntheticSeed : DatasetKind → Nat
  | .anxiety => 42
  | .aggression => 43
  | .sevenScales => 44
  | .wellbeing => 45
  | .steamGames => 46

/-- The fixed synthetic row count of each kind
(lines 54, 177, 324, 390, 458). -/
def syntheticRowCount : DatasetKind → Nat
  | .anxiety => 1000
  | .aggression => 800
  | .sevenScales => 1200
  | .wellbeing => 1500
  | .steamGames => 500

/-- The column set of each kind's synthetic fallback table, exactly as the
`pd.DataFrame` literals construct it (lines 55–61, 178–184, 325–337,
394–404, 462–473). -/
def syntheticCols : DatasetKind → List String
  | .anxiety =>
    ["participant_id", "gaming_hours_daily", "anxiety_score", "age", "gender"]
  | .aggression =>
    ["participant_id", "gaming_hours_daily", "aggression_score", "age", "gender"]
  | .sevenScales =>
    ["participant_id", "gaming_hours_daily", "openness_score",
     "conscientiousness_score", "extraversion_score", "agreeableness_score",
     "neuroticism_score", "gaming_addiction_score", "social_gaming_score",
     "age", "gaming_genre_preference"]
  | .wellbeing =>
    ["user_id", "game_title", "hours_played", "wellbeing_score",
     "stress_level", "social_connection_score", "achievement_satisfaction",
     "gaming_session_length", "age"]
  | .steamGames =>
    ["game_id", "name", "genre", "developer", "price", "metacritic_score",
     "player_count", "release_year", "is_multiplayer", "has_microtransactions"]

/-! ### Top-level cleaners: dispatch, `drop_duplicates`, `try/except` -/

/-- A cleaned optional-ℚ cell back to a table cell. -/
def optQVal : Option ℚ → Value
  | some q => .num q
  | none => .null

/-- A cleaned optional-string cell back to a table cell. -/
def optSVal : Option String → Value
  | some s => .str s
  | none => .null

/-- A reconciled anxiety row as a row of the output table, in
`df_clean`'s column insertion order. -/
def anxietyRowToRow (r : AnxietyRow) : Row :=
  [("age", .num (r.age : ℚ)),
   ("gaming_hours_daily", optQVal r.gaming_hours_daily),
   ("gender", optSVal r.gender),
   ("anxiety_score", .num (r.anxiety_score : ℚ))]

/-- A reconciled aggression row as a row of the output table. -/
def aggressionRowToRow (r : AggressionRow) : Row :=
  [("gaming_hours_daily", optQVal r.gaming_hours_daily),
   ("age", .num (r.age : ℚ)),
   ("gender", optSVal r.gender),
   ("aggression_score", .num (r.aggression_score : ℚ))]

/-- `clean_gaming_anxiety_data` (lines 22–155). A missing file (`none`)
takes the synthetic branch; a present file takes the real branch; any
raised pandas error reaches the function-level `except` and the function
returns `None`. Both branches end with `drop_duplicates()`. -/
def clean_gaming_anxiety_data (rng : Rng) (file : Option Table) : Option Table :=
  match file with
  | none =>
    let t := anxietySynthTable rng
    some { cols := t.cols, rows := dedupFirst t.rows }
  | some t =>
    match cleanAnxietyRows t with
    | .ok rs =>
      some { cols := ["age", "gaming_hours_daily", "gender", "anxiety_score"],
             rows := dedupFirst (rs.map anxietyRowToRow) }
    | .error _ => none

/-- `clean_gaming_aggression_data` (lines 157–302), same structure. -/
def clean_gaming_aggression_data (rng : Rng) (file : Option Table) : Option Table :=
  match file with
  | none =>
    let t := aggressionSynthTable rng
    some { cols := t.cols, rows := dedupFirst t.rows }
  | some t =>
    match cleanAggressionRows t with
    | .ok rs =>
      some { cols := ["gaming_hours_daily", "age", "gender", "aggression_score"],
             rows := dedupFirst (rs.map aggressionRowToRow) }
    | .error _ => none

/-- Is column `c` of numeric (`np.number`) dtype? True when every cell is
a number or null (an all-null column is `float64`); string or boolean
cells give `object`/`bool` dtype, which `select_dtypes(include=[np.number])`
excludes. -/
def tableColumnNumeric (t : Table) (c : String) : Bool :=
  (colVals t c).all (fun v =>
    match v with
    | .num _ => true
    | .null => true
    | _ => false)

/-- The median of column `c`'s numeric values. -/
def numericMedian (t : Table) (c : String) : Option ℚ :=
  median ((colVals t c).filterMap (fun v =>
    match v with
    | .num q => some q
    | _ => none))

/-- The `for col in numeric_columns: df[col] = df[col].fillna(df[col].median())`
loop (lines 354–356 and analogues): every null cell of a numeric column
becomes that column's median (and stays null when the column has no
values). -/
def fillnaNumericCols (t : Table) : Table :=
  { cols := t.cols,
    rows := t.rows.map (fun r => r.map (fun p =>
      if tableColumnNumeric t p.1 && p.2 == Value.null then
        (p.1, match numericMedian t p.1 with
              | some m => Value.num m
              | none => Value.null)
      else p)) }

/-- The shared tail of the three remaining cleaners (lines 347–356 and
analogues): `drop_duplicates()` then the per-numeric-column median
fill. -/
def commonNumericClean (t : Table) : Table :=
  fillnaNumericCols { cols := t.cols, rows := dedupFirst t.rows }

/-- `clean_gaming_7scales_data` (lines 304–368): synthetic fallback when
the file is missing, then the common duplicate-drop and median-fill
(nothing in this body raises). -/
def clean_gaming_7scales_data (rng : Rng) (file : Option Table) : Option Table :=
  match file with
  | none => some (commonNumericClean (sevenScalesSynthTable rng))
  | some t => some (commonNumericClean t)

/-- `clean_games_wellbeing_steam_data` (lines 370–436), same structure. -/
def clean_games_wellbeing_steam_data (rng : Rng) (file : Option Table) :
    Option Table :=
  match file with
  | none => some (commonNumericClean (wellbeingSynthTable rng))
  | some t => some (commonNumericClean t)

/-- `clean_steam_games_data` (lines 438–501), same structure. -/
def clean_steam_games_data (rng : Rng) (file : Option Table) : Option Table :=
  match file with
  | none => some (commonNumericClean (steamGamesSynthTable rng))
  | some t => some (commonNumericClean t)

/-- The synthetic table each kind's missing-file branch constructs. -/
def syntheticTable (k : DatasetKind) (rng : Rng) : Table :=
  match k with
  | .anxiety => anxietySynthTable rng
  | .aggression => aggressionSynthTable rng
  | .sevenScales => sevenScalesSynthTable rng
  | .wellbeing => wellbeingSynthTable rng
  | .steamGames => steamGamesSynthTable rng

/-- The cleaner `main()` dispatches to for each dataset kind
(lines 503–523). -/
def clean_dataset (k : DatasetKind) (rng : Rng) (file : Option Table) :
    Option Table :=
  match k with
  | .anxiety => clean_gaming_anxiety_data rng file
  | .aggression => clean_gaming_aggression_data rng file
  | .sevenScales => clean_gaming_7scales_data rng file
  | .wellbeing => clean_games_wellbeing_steam_data rng file
  | .steamGames => clean_steam_games_data rng file

/-- The survey portion of `main()` (lines 503–523): each kind is cleaned
independently and its result recorded, `None` marking a failed kind. -/
def runSurveyCleaners (rng : Rng) (anxietyFile aggressionFile : Option Table) :
    Option Table × Option Table :=
  (clean_gaming_anxiety_data rng anxietyFile,
   clean_gaming_aggression_data rng aggressionFile)

/-! ### Entity Merger (`merge_gaming_datasets.py`, `create_master_dataset`) -/

/-- The gaming-hours column candidates, in preference order (line 126). -/
def gamingHoursCols : List String :=
  ["gaming_hours_weekly", "gaming_hours_daily", "hours_played"]

/-- All column names appearing in some input table, in first-appearance
order (the deterministic reading of the Python `set` accumulation at
lines 112–114). -/
def allColumnsOf (datasets : List (String × Table)) : List String :=
  dedupFirst ((datasets.map (fun d => d.2.cols)).flatten)

/-- In how many input tables does column `c` appear (lines 117–120)? -/
def columnCount (datasets : List (String × Table)) (c : String) : Nat :=
  (datasets.filter (fun d => c ∈ d.2.cols)).length

/-- The selected master columns (lines 122–140): the core
`participant_id`/`age`, at most one gaming-hours column (first candidate
present in any table), `gaming_preference` when present anywhere, then
every column appearing in at least two tables. -/
def selectedColumns (datasets : List (String × Table)) : List String :=
  let core := ["participant_id", "age"]
  let core := core ++
    match gamingHoursCols.find? (fun c => datasets.any (fun d => c ∈ d.2.cols)) with
    | some c => [c]
    | none => []
  let core := core ++
    (if datasets.any (fun d => "gaming_preference" ∈ d.2.cols) then
      ["gaming_preference"] else [])
  core ++ (allColumnsOf datasets).filter
    (fun c => 2 ≤ columnCount datasets c && c ∉ core)

/-- One table's contribution (lines 146–161): its rows projected to the
available selected columns plus a `data_source` tag; skipped entirely
when fewer than two selected columns are available. -/
def contributionOf (selected : List String) (d : String × Table) :
    Option (List String × List Row) :=
  let available := selected.filter (fun c => c ∈ d.2.cols)
  if available.length < 2 then none
  else
    some (available ++ ["data_source"],
      d.2.rows.map (fun r =>
        available.map (fun c => (c, (r.lookup c).getD Value.null)) ++
        [("data_source", Value.str d.1)]))

/-- The key `drop_duplicates(subset=['participant_id'])` deduplicates on;
pandas treats the NaN of rows lacking the column as equal keys, as does
`none` here. -/
def participantKey (r : Row) : Option Value :=
  r.lookup "participant_id"

/-- `create_master_dataset` (lines 102–178): concatenate every table's
contribution in input order, then, when a `participant_id` column exists,
deduplicate on it keeping the first occurrence. `None` when there are no
input tables or no contribution. -/
def create_master_dataset (datasets : List (String × Table)) : Option Table :=
  if datasets.isEmpty then none
  else
    let selected := selectedColumns datasets
    let contribs := datasets.filterMap (contributionOf selected)
    if contribs.isEmpty then none
    else
      let cols := dedupFirst ((contribs.map (fun c => c.1)).flatten)
      let rows := (contribs.map (fun c => c.2)).flatten
      let rows :=
        if "participant_id" ∈ cols then dedupByKey participantKey rows
        else rows
      some { cols := cols, rows := rows }

/-! ### Title normalization (`prepare_clean_data.py`, `normalize_game_titles`) -/

/-- Python's `\s` class, ASCII fragment: space, tab, newline, carriage
return, vertical tab, form feed. -/
def isWsChar (c : Char) : Bool :=
  c = ' ' || c = '\t' || c = '\n' || c = '\r' || c = Char.ofNat 11 || c = Char.ofNat 12

/-- Python's `\w` class, ASCII fragment: letters, digits, underscore. -/
def isWordChar (c : Char) : Bool :=
  c.isAlphanum || c = '_'

/-- Characters surviving `re.sub(r'[^\w\s]', '', s)`. -/
def keepChar (c : Char) : Bool :=
  isWordChar c || isWsChar c

/-- `re.sub(r'\s+', ' ', s)`: each maximal whitespace run becomes a single
space. The boolean is whether the previous character was whitespace. -/
def collapseWsAux : Bool → List Char → List Char
  | _, [] => []
  | prevWs, c :: rest =>
    if isWsChar c then
      if prevWs then collapseWsAux true rest
      else ' ' :: collapseWsAux true rest
    else c :: collapseWsAux false rest

/-- Whitespace-run collapsing from the start of the string. -/
def collapseWs (l : List Char) : List Char :=
  collapseWsAux false l

/-- Python `str.strip()`: leading and trailing whitespace removed. -/
def stripWs (l : List Char) : List Char :=
  ((l.dropWhile isWsChar).reverse.dropWhile isWsChar).reverse

/-- `normalize_game_titles` (lines 90–108): empty string for a missing
title, otherwise lowercase, strip punctuation, collapse whitespace,
strip. -/
def normalize_game_titles (t : Option String) : String :=
  match t with
  | none => ""
  | some s =>
    String.mk (stripWs (collapseWs ((s.data.map lowerChar).filter keepChar)))

/-! ### Relational Loader (`create_database.py`, `insert_games_data`) -/

/-- One row of the `games` table, the eleven columns of the
`INSERT OR REPLACE` at lines 282–287 (the AUTOINCREMENT `game_id` and the
timestamp default are not part of the inserted tuple). -/
structure GameRow where
  steam_app_id : Option Int
  game_title : String
  genre : Option String
  category : Option String
  release_date : Option String
  price : Option ℚ
  positive_reviews : Option Int
  negative_reviews : Option Int
  estimated_owners : Option String
  metacritic_score : Option Int
  tags : Option String
  deriving DecidableEq, Repr

/-- Does inserting `r` conflict with existing row `g` on the schema's
`steam_app_id INTEGER UNIQUE` (line 72)? SQL `UNIQUE` never counts NULL
keys as conflicting. -/
def appIdConflict (g r : GameRow) : Bool :=
  match r.steam_app_id with
  | some a => decide (g.steam_app_id = some a)
  | none => false

/-- SQLite `INSERT OR REPLACE`: delete every row conflicting on the
unique key, then insert. -/
def insertOrReplaceGame (tbl : List GameRow) (r : GameRow) : List GameRow :=
  tbl.filter (fun g => !(appIdConflict g r)) ++ [r]

/-- `insert_games_data` (lines 250–290): `executemany` of
`INSERT OR REPLACE INTO games`, processing the prepared tuples in
order. -/
def insert_games_data (tbl : List GameRow) (rows : List GameRow) : List GameRow :=
  rows.foldl insertOrReplaceGame tbl

/-- The rows of a games table holding app id `a`. -/
def rowsWithAppId (a : Int) (tbl : List GameRow) : List GameRow :=
  tbl.filter (fun g => decide (g.steam_app_id = some a))

/-! ### Length-alignment sampling (Entity Merger, spec §4.3) -/

/-- Modelled from the spec: a fixed-seed pseudo-random step for the
length-alignment sampling procedure of the Entity Merger's analysis-view
construction (spec §4.3). The procedure is described by the spec but its
implementation is not among the provided sources (the repository's
superseded merge-pipeline variants are outside `src`); the generator
itself is unspecified there, so a standard linear congruential step
stands in. -/
def lcgNext (s : Nat) : Nat :=
  (1103515245 * s + 12345) % 2147483648

/-- Modelled from the spec: a fixed-seed random sample without
replacement of `n` rows (spec §4.3, "take a fixed-seed random sample
without replacement of base-length"), as seeded deterministic draws of
one remaining row at a time. -/
def sampleWithoutReplacement {α : Type} (seed : Nat) : Nat → List α → List α
  | 0, _ => []
  | _ + 1, [] => []
  | n + 1, x :: xs =>
    let l := x :: xs
    let i := lcgNext seed % l.length
    l.getD i x :: sampleWithoutReplacement (lcgNext seed) n (l.eraseIdx i)

/-- Modelled from the spec: "cyclically repeat the enrichment table until
it reaches base length, then truncate" (spec §4.3). -/
def repeatThenTruncate {α : Type} (n : Nat) (l : List α) : List α :=
  if l.isEmpty then []
  else ((List.replicate ((n + l.length - 1) / l.length) l).flatten).take n

/-- Modelled from the spec: the length-alignment sampling procedure
(spec §4.3): sample without replacement when the enrichment table is at
least as long as the base, cyclically repeat then truncate when it is
shorter. -/
def alignEnrichment {α : Type} (seed : Nat) (base enrich : List α) : List α :=
  if base.length ≤ enrich.length then
    sampleWithoutReplacement seed base.length enrich
  else
    repeatThenTruncate base.length enrich

/-! ### Concrete instances used by witnesses and counterexamples -/

/-- A concrete instance of the abstract numpy generator (all draws 0). -/
def constRng : Rng :=
  { lognormal := fun _ _ _ _ => 0,
    normal := fun _ _ _ _ => 0,
    choice := fun _ _ _ => 0 }

/-- The two-respondent anxiety source of the spec's end-to-end scenario:
one age `"22 years old"` with hours `"more than 3 hours a day"`, one with
both fields missing. -/
def scenarioAnxietyInput : Table :=
  { cols := [ageColLabel, anxietyHoursColLabel],
    rows :=
      [[(ageColLabel, .str "22 years old"),
        (anxietyHoursColLabel, .str "more than 3 hours a day")],
       [(ageColLabel, .null), (anxietyHoursColLabel, .null)]] }

/-- The same scenario with a distinguishing gender column, so the two
reconciled rows are not full-row duplicates. -/
def scenarioAnxietyGenderInput : Table :=
  { cols := [ageColLabel, anxietyHoursColLabel, genderColLabel],
    rows :=
      [[(ageColLabel, .str "22 years old"),
        (anxietyHoursColLabel, .str "more than 3 hours a day"),
        (genderColLabel, .str "Male")],
       [(ageColLabel, .null), (anxietyHoursColLabel, .null),
        (genderColLabel, .str "Female")]] }

/-- An anxiety source whose hours column is entirely numeric: pandas reads
it as an `int64` column and the `.str` accessor raises. -/
def numericHoursInput : Table :=
  { cols := [ageColLabel, anxietyHoursColLabel],
    rows :=
      [[(ageColLabel, .str "20"), (anxietyHoursColLabel, .num 3)],
       [(ageColLabel, .str "30"), (anxietyHoursColLabel, .num 5)]] }

/-- A one-respondent survey table both cleaners accept. -/
def smallSurveyInput : Table :=
  { cols := [ageColLabel, anxietyHoursColLabel],
    rows := [[(ageColLabel, .str "25"), (anxietyHoursColLabel, .str "4 hours")]] }

/-- A one-respondent aggression source using the frequency phrasing. -/
def smallAggressionInput : Table :=
  { cols := [aggressionHoursColLabel, ageColLabel],
    rows := [[(aggressionHoursColLabel, .str "more than 2 hours"),
              (ageColLabel, .str "21")]] }

/-- First-run metadata for Steam app id 7. -/
def gameA : GameRow :=
  { steam_app_id := some 7, game_title := "Portal", genre := some "Puzzle",
    category := none, release_date := none, price := some 10,
    positive_reviews := none, negative_reviews := none,
    estimated_owners := none, metacritic_score := some 90, tags := none }

/-- Second-run metadata for the same app id. -/
def gameB : GameRow :=
  { steam_app_id := some 7, game_title := "Portal 2", genre := some "Puzzle",
    category := none, release_date := none, price := some 20,
    positive_reviews := none, negative_reviews := none,
    estimated_owners := none, metacritic_score := some 95, tags := none }

/-- Two cleaned survey tables sharing participant `P1`. -/
def mergeInputs : List (String × Table) :=
  [("anxiety",
    { cols := ["participant_id", "age"],
      rows := [[("participant_id", .str "P1"), ("age", .num 20)],
               [("participant_id", .str "P2"), ("age", .num 30)]] }),
   ("aggression",
    { cols := ["participant_id", "age"],
      rows := [[("participant_id", .str "P1"), ("age", .num 21)]] })]

/-- The master table the merge produces from `mergeInputs`. -/
def mergeExpected : Table :=
  { cols := ["participant_id", "age", "data_source"],
    rows := [[("participant_id", .str "P1"), ("age", .num 20),
              ("data_source", .str "anxiety")],
             [("participant_id", .str "P2"), ("age", .num 30),
              ("data_source", .str "anxiety")]] }

/-- Is the first character whitespace? (false for the empty list) — a
proof-side observation used to reason about `strip`/collapse. -/
def headWs (l : List Char) : Bool :=
  match l with
  | [] => false
  | c :: _ => isWsChar c

/-- No two adjacent whitespace characters — the shape `re.sub(r'\s+', ' ')`
output has. -/
def NoAdjWs (l : List Char) : Prop :=
  List.Chain' (fun c d => ¬(isWsChar c = true ∧ isWsChar d = true)) l

/-! ### Shared lemmas -/

theorem listSum_nonneg : ∀ (l : List Int), (∀ x ∈ l, 0 ≤ x) → 0 ≤ l.sum := by
  intro l h
  induction l with
  | nil => simp
  | cons x xs ih =>
    have hx := h x (List.mem_cons_self x xs)
    have hxs := ih (fun y hy => h y (List.mem_cons_of_mem x hy))
    simp only [List.sum_cons]
    omega

theorem listSum_le_mul (b : Int) :
    ∀ (l : List Int), (∀ x ∈ l, x ≤ b) → l.sum ≤ b * l.length := by
  intro l h
  induction l with
  | nil => simp
  | cons x xs ih =>
    have hx := h x (List.mem_cons_self x xs)
    have hxs := ih (fun y hy => h y (List.mem_cons_of_mem x hy))
    simp only [List.sum_cons, List.length_cons]
    push_cast
    have : b * ((xs.length : Int) + 1) = b * xs.length + b := by ring
    omega

theorem score_likert_mem (v : Value) :
    0 ≤ score_likert v ∧ score_likert v ≤ 3 := by
  unfold score_likert
  cases v <;> simp <;> (repeat' split) <;> omega

theorem score_aggression_likert_mem (v : Value) :
    0 ≤ score_aggression_likert v ∧ score_aggression_likert v ≤ 4 := by
  unfold score_aggression_likert
  cases v <;> simp <;> (repeat' split) <;> omega

/-! ### C8: score caps -/

/-- C8: per-respondent derived scores sum capped column lists — at most 7
anxiety items scored in `{0,…,3}` and at most 15 aggression items scored
in `{0,…,4}` — so for every input row the anxiety score lies in `[0, 21]`
and the aggression score lies in `[0, 60]`, whatever columns matched the
keywords. -/
theorem domain_scores_bounded (qsA qsG : List String) (r : Row) :
    (0 ≤ anxietyScoreOfRow qsA r ∧ anxietyScoreOfRow qsA r ≤ 21) ∧
    (0 ≤ aggressionScoreOfRow qsG r ∧ aggressionScoreOfRow qsG r ≤ 60) := by
  constructor
  · unfold anxietyScoreOfRow
    split
    · omega
    · have hmem : ∀ x ∈ (qsA.take 7).map
          (fun c => score_likert ((r.lookup c).getD .null)), 0 ≤ x ∧ x ≤ 3 := by
        intro x hx
        obtain ⟨c, _, rfl⟩ := List.mem_map.mp hx
        exact score_likert_mem _
      have h1 := listSum_nonneg _ (fun x hx => (hmem x hx).1)
      have h2 := listSum_le_mul 3 _ (fun x hx => (hmem x hx).2)
      have hlen : ((qsA.take 7).map
          (fun c => score_likert ((r.lookup c).getD .null))).length ≤ 7 := by
        simp [List.length_take]
      have hlen' : (3 : Int) * ((qsA.take 7).map
          (fun c => score_likert ((r.lookup c).getD .null))).length ≤ 21 := by
        have : (((qsA.take 7).map
            (fun c => score_likert ((r.lookup c).getD .null))).length : Int) ≤ 7 := by
          exact_mod_cast hlen
        omega
      omega
  · unfold aggressionScoreOfRow
    split
    · omega
    · have hmem : ∀ x ∈ (qsG.take 15).map
          (fun c => score_aggression_likert ((r.lookup c).getD .null)),
          0 ≤ x ∧ x ≤ 4 := by
        intro x hx
        obtain ⟨c, _, rfl⟩ := List.mem_map.mp hx
        exact score_aggression_likert_mem _
      have h1 := listSum_nonneg _ (fun x hx => (hmem x hx).1)
      have h2 := listSum_le_mul 4 _ (fun x hx => (hmem x hx).2)
      have hlen : ((qsG.take 15).map
          (fun c => score_aggression_likert ((r.lookup c).getD .null))).length ≤ 15 := by
        simp [List.length_take]
      have hlen' : (4 : Int) * ((qsG.take 15).map
          (fun c => score_aggression_likert ((r.lookup c).getD .null))).length ≤ 60 := by
        have : (((qsG.take 15).map
            (fun c => score_aggression_likert ((r.lookup c).getD .null))).length : Int) ≤ 15 := by
          exact_mod_cast hlen
        omega
      omega

/-! ### C7: ordered first-match scoring -/

/-- C7: free-text Likert scoring is an ordered case-insensitive
first-match over fixed patterns: a missing response scores the neutral
default 2 in both scorers; a response containing `strongly disagree`
scores 0 (never the plain-disagree 1); a response containing `disagree`
but not `strongly disagree` scores 1; a response matching no aggression
pattern scores 2; a response containing `never` scores 0 in the anxiety
scorer; a response matching no anxiety pattern scores 2. -/
theorem likert_first_match_contract :
    score_likert Value.null = 2 ∧
    score_aggression_likert Value.null = 2 ∧
    (∀ s : String, containsStr (lowerStr s) "strongly disagree" = true →
      score_aggression_likert (.str s) = 0) ∧
    (∀ s : String, containsStr (lowerStr s) "strongly disagree" = false →
      containsStr (lowerStr s) "disagree" = true →
      score_aggression_likert (.str s) = 1) ∧
    (∀ s : String, containsStr (lowerStr s) "strongly disagree" = false →
      containsStr (lowerStr s) "disagree" = false →
      containsStr (lowerStr s) "neither" = false →
      containsStr (lowerStr s) "strongly agree" = false →
      containsStr (lowerStr s) "agree" = false →
      score_aggression_likert (.str s) = 2) ∧
    (∀ s : String, containsStr (lowerStr s) "never" = true →
      score_likert (.str s) = 0) ∧
    (∀ s : String, containsStr (lowerStr s) "never" = false →
      containsStr (lowerStr s) "not at all" = false →
      containsStr (lowerStr s) "several" = false →
      containsStr (lowerStr s) "sometimes" = false →
      containsStr (lowerStr s) "more than half" = false →
      containsStr (lowerStr s) "often" = false →
      containsStr (lowerStr s) "nearly every" = false →
      containsStr (lowerStr s) "always" = false →
      score_likert (.str s) = 2) := by
  refine ⟨rfl, rfl, ?_, ?_, ?_, ?_, ?_⟩
  · intro s h
    simp [score_aggression_likert, Value.pyStr, h]
  · intro s h1 h2
    simp [score_aggression_likert, Value.pyStr, h1, h2]
  · intro s h1 h2 h3 h4 h5
    simp [score_aggression_likert, Value.pyStr, h1, h2, h3, h4, h5]
  · intro s h
    simp [score_likert, Value.pyStr, h]
  · intro s h1 h2 h3 h4 h5 h6 h7 h8
    simp [score_likert, Value.pyStr, h1, h2, h3, h4, h5, h6, h7, h8]

/-- Witness for C7 at concrete responses. -/
theorem likert_first_match_contract_witness :
    score_aggression_likert (.str "They Strongly Disagree!") = 0 ∧
    score_aggression_likert (.str "I disagree") = 1 ∧
    score_aggression_likert (.str "banana") = 2 ∧
    score_likert (.str "Never") = 0 ∧
    score_likert (.str "banana") = 2 :=
  ⟨likert_first_match_contract.2.2.1 _ (by decide),
   likert_first_match_contract.2.2.2.1 _ (by decide) (by decide),
   likert_first_match_contract.2.2.2.2.1 _ (by decide) (by decide) (by decide)
     (by decide) (by decide),
   likert_first_match_contract.2.2.2.2.2.1 _ (by decide),
   likert_first_match_contract.2.2.2.2.2.2 _ (by decide) (by decide) (by decide)
     (by decide) (by decide) (by decide) (by decide) (by decide)⟩

/-! ### C10: length alignment -/

theorem sampleWithoutReplacement_length {α : Type} :
    ∀ (n seed : Nat) (l : List α), n ≤ l.length →
      (sampleWithoutReplacement seed n l).length = n := by
  intro n
  induction n with
  | zero => intro seed l _; rfl
  | succ m ih =>
    intro seed l h
    match l with
    | [] => simp at h
    | x :: xs =>
      have key : ∀ j, j < (x :: xs).length → m ≤ ((x :: xs).eraseIdx j).length := by
        intro j hj
        have h2 := List.length_eraseIdx_add_one hj
        simp only [List.length_cons] at h h2 ⊢
        omega
      simp only [sampleWithoutReplacement, List.length_cons]
      rw [ih _ _ (key (lcgNext seed % (xs.length + 1))
        (Nat.mod_lt _ (Nat.succ_pos _)))]

theorem repeatThenTruncate_length {α : Type} (n : Nat) (l : List α)
    (h : l ≠ []) : (repeatThenTruncate n l).length = n := by
  unfold repeatThenTruncate
  rw [if_neg (by simpa using h)]
  have hflat : ((List.replicate ((n + l.length - 1) / l.length) l).flatten).length
      = ((n + l.length - 1) / l.length) * l.length := by
    simp [List.length_flatten, List.map_replicate, List.sum_replicate, smul_eq_mul]
  rw [List.length_take, hflat]
  have hpos : 0 < l.length := List.length_pos.mpr h
  have hdm := Nat.div_add_mod (n + l.length - 1) l.length
  have hmod : (n + l.length - 1) % l.length < l.length := Nat.mod_lt _ hpos
  rw [mul_comm]
  omega

/-- C10 (modelled from the spec, the implementation being outside the
provided sources): the length-alignment sampling procedure returns an
enrichment contribution of exactly base length for any non-empty
enrichment table — fixed-seed sampling without replacement when the
enrichment is at least base length, cyclic repetition then truncation
when shorter — and in particular never fails on a length mismatch. -/
theorem align_enrichment_length (seed : Nat) (base enrich : List Row)
    (h : enrich ≠ []) :
    (alignEnrichment seed base enrich).length = base.length := by
  unfold alignEnrichment
  split
  · exact sampleWithoutReplacement_length _ _ _ (by assumption)
  · exact repeatThenTruncate_length _ _ h

/-- Witness for C10: a 500-row base and a 50-row enrichment align to
exactly 500 rows. -/
theorem align_enrichment_length_witness :
    (List.replicate 50 ([] : Row)) ≠ [] ∧
    (alignEnrichment 42 (List.replicate 500 ([] : Row))
      (List.replicate 50 ([] : Row))).length =
      (List.replicate 500 ([] : Row)).length :=
  ⟨by simp, align_enrichment_length 42 _ _ (by simp)⟩

/-! ### C6: replace-on-conflict upsert -/

theorem rowsWithAppId_insertOrReplace (a : Int) (tbl : List GameRow)
    (r : GameRow) :
    rowsWithAppId a (insertOrReplaceGame tbl r) =
      if r.steam_app_id = some a then [r] else rowsWithAppId a tbl := by
  unfold rowsWithAppId insertOrReplaceGame
  rw [List.filter_append]
  split
  · rename_i hr
    have h1 : (tbl.filter (fun g => !(appIdConflict g r))).filter
        (fun g => decide (g.steam_app_id = some a)) = [] := by
      rw [List.filter_filter, List.filter_eq_nil_iff]
      intro g _
      simp only [appIdConflict, hr]
      by_cases hga : g.steam_app_id = some a <;> simp [hga]
    rw [h1]
    simp [hr]
  · rename_i hr
    have h2 : List.filter (fun g => decide (g.steam_app_id = some a)) [r] = [] := by
      simp [hr]
    rw [h2, List.filter_filter]
    rw [List.append_nil]
    apply List.filter_congr
    intro g _
    cases hc : r.steam_app_id with
    | none => simp [appIdConflict, hc]
    | some b =>
      have hab : b ≠ a := by
        intro e
        exact hr (by rw [hc, e])
      by_cases hga : g.steam_app_id = some a
      · simp [appIdConflict, hc, hga]
        omega
      · simp [appIdConflict, hc, hga]

theorem rowsWithAppId_insert_no_key (a : Int) :
    ∀ (rs tbl : List GameRow),
      (∀ r ∈ rs, r.steam_app_id ≠ some a) →
      rowsWithAppId a (insert_games_data tbl rs) = rowsWithAppId a tbl := by
  intro rs
  induction rs with
  | nil => intro tbl _; rfl
  | cons x xs ih =>
    intro tbl h
    simp only [insert_games_data, List.foldl_cons]
    rw [show xs.foldl insertOrReplaceGame (insertOrReplaceGame tbl x) =
        insert_games_data (insertOrReplaceGame tbl x) xs from rfl]
    rw [ih _ (fun r hr => h r (List.mem_cons_of_mem _ hr))]
    rw [rowsWithAppId_insertOrReplace, if_neg (h x (List.mem_cons_self _ _))]

/-- C6: for every prior games-table state and non-null app id, running two
loads in sequence where the second load carries exactly one row `r2` for
that id leaves exactly one row for that id — `r2`, the second run's
values — whatever the first run inserted (replace-on-conflict, last write
wins). -/
theorem games_upsert_last_write_wins (t run1 run2 : List GameRow) (a : Int)
    (r2 : GameRow)
    (h : run2.filter (fun g => decide (g.steam_app_id = some a)) = [r2]) :
    rowsWithAppId a (insert_games_data (insert_games_data t run1) run2) = [r2] := by
  have main : ∀ (rs tbl : List GameRow),
      rs.filter (fun g => decide (g.steam_app_id = some a)) = [r2] →
      rowsWithAppId a (insert_games_data tbl rs) = [r2] := by
    intro rs
    induction rs with
    | nil => intro tbl h0; simp at h0
    | cons x xs ih =>
      intro tbl h0
      simp only [insert_games_data, List.foldl_cons]
      rw [show xs.foldl insertOrReplaceGame (insertOrReplaceGame tbl x) =
          insert_games_data (insertOrReplaceGame tbl x) xs from rfl]
      by_cases hx : x.steam_app_id = some a
      · rw [List.filter_cons_of_pos (by simp [hx])] at h0
        simp only [List.cons.injEq] at h0
        obtain ⟨rfl, hone⟩ := h0
        have hnone : ∀ r ∈ xs, r.steam_app_id ≠ some a := by
          intro r hr he
          have hmem : r ∈ xs.filter (fun g => decide (g.steam_app_id = some a)) :=
            List.mem_filter.mpr ⟨hr, by simp [he]⟩
          rw [hone] at hmem
          simp at hmem
        rw [rowsWithAppId_insert_no_key a xs _ hnone]
        rw [rowsWithAppId_insertOrReplace, if_pos hx]
      · rw [List.filter_cons_of_neg (by simp [hx])] at h0
        exact ih _ h0
  exact main run2 _ h

/-- Witness for C6: loading app id 7 as `gameA` and then as `gameB` leaves
exactly the `gameB` row. -/
theorem games_upsert_last_write_wins_witness :
    ([gameB].filter (fun g => decide (g.steam_app_id = some 7)) = [gameB]) ∧
    rowsWithAppId 7 (insert_games_data (insert_games_data [] [gameA]) [gameB]) =
      [gameB] :=
  ⟨by decide, games_upsert_last_write_wins [] [gameA] [gameB] 7 gameB (by decide)⟩

/-! ### C1: master-merge deduplication -/

theorem dedupByKeyAux_map_nodup {α β : Type} [DecidableEq β] (key : α → β) :
    ∀ (l : List α) (seen : List β),
      ((dedupByKeyAux key seen l).map key).Nodup ∧
      ∀ b ∈ (dedupByKeyAux key seen l).map key, b ∉ seen := by
  intro l
  induction l with
  | nil => intro seen; simp [dedupByKeyAux]
  | cons x xs ih =>
    intro seen
    simp only [dedupByKeyAux]
    split
    · exact ih seen
    · rename_i hx
      refine ⟨?_, ?_⟩
      · simp only [List.map_cons, List.nodup_cons]
        refine ⟨?_, (ih (key x :: seen)).1⟩
        intro hmem
        have h2 := (ih (key x :: seen)).2 _ hmem
        simp at h2
      · intro b hb
        simp only [List.map_cons, List.mem_cons] at hb
        rcases hb with rfl | hb
        · exact hx
        · have h2 := (ih (key x :: seen)).2 _ hb
          intro hbseen
          exact h2 (List.mem_cons_of_mem _ hbseen)

theorem dedupByKeyAux_idem {α β : Type} [DecidableEq β] (key : α → β) :
    ∀ (l : List α) (seen : List β),
      dedupByKeyAux key seen (dedupByKeyAux key seen l) =
        dedupByKeyAux key seen l := by
  intro l
  induction l with
  | nil => intro seen; rfl
  | cons x xs ih =>
    intro seen
    simp only [dedupByKeyAux]
    split
    · exact ih seen
    · rename_i hx
      conv_lhs => rw [dedupByKeyAux]
      rw [if_neg hx, ih (key x :: seen)]

/-- C1: the master merge concatenates the per-table contributions in input
order and deduplicates on `participant_id` keeping the first occurrence,
so the output's participant keys are pairwise distinct (each id occurs at
most once, pandas-style with null keys also collapsed), and the
deduplication is idempotent: re-deduplicating the output leaves row count
and row order unchanged. -/
theorem master_merge_dedup_unique_and_idem (datasets : List (String × Table))
    (out : Table) (h : create_master_dataset datasets = some out)
    (hpid : "participant_id" ∈ out.cols) :
    (out.rows.map participantKey).Nodup ∧
    dedupByKey participantKey out.rows = out.rows := by
  unfold create_master_dataset at h
  split at h
  · exact absurd h (by simp)
  · dsimp only at h
    split at h
    · exact absurd h (by simp)
    · simp only [Option.some.injEq] at h
      subst h
      simp only at hpid ⊢
      rw [if_pos hpid]
      constructor
      · exact (dedupByKeyAux_map_nodup participantKey _ []).1
      · exact dedupByKeyAux_idem participantKey _ []

/-- Witness for C1 on two concrete survey tables sharing participant
`P1`. -/
theorem master_merge_dedup_witness :
    (create_master_dataset mergeInputs = some mergeExpected) ∧
    ((mergeExpected.rows.map participantKey).Nodup ∧
      dedupByKey participantKey mergeExpected.rows = mergeExpected.rows) :=
  ⟨by decide,
   master_merge_dedup_unique_and_idem mergeInputs mergeExpected
     (by decide) (by decide)⟩

/-! ### C3: domain validation -/

theorem exceptBind_ok {ε α β : Type} (e : Except ε α) (f : α → Except ε β)
    (b : β) (h : (e >>= f) = .ok b) : ∃ a, e = .ok a ∧ f a = .ok b := by
  cases e with
  | ok a => exact ⟨a, rfl, h⟩
  | error err => simp [Bind.bind, Except.bind] at h

theorem mem_of_mem_dedupByKeyAux {α β : Type} [DecidableEq β] (key : α → β) :
    ∀ (l : List α) (seen : List β) (x : α),
      x ∈ dedupByKeyAux key seen l → x ∈ l := by
  intro l
  induction l with
  | nil => intro seen x hx; simp [dedupByKeyAux] at hx
  | cons y ys ih =>
    intro seen x hx
    simp only [dedupByKeyAux] at hx
    split at hx
    · exact List.mem_cons_of_mem _ (ih _ _ hx)
    · rcases List.mem_cons.mp hx with rfl | hx
      · exact List.mem_cons_self _ _
      · exact List.mem_cons_of_mem _ (ih _ _ hx)

theorem cleanAnxietyRows_ok_ranges (t : Table) (rs : List AnxietyRow)
    (h : cleanAnxietyRows t = .ok rs) :
    ∀ r ∈ rs, hoursInRange r.gaming_hours_daily = true ∧
      ageInRange r.age = true := by
  unfold cleanAnxietyRows at h
  obtain ⟨hoursRaw, _, h⟩ := exceptBind_ok _ _ _ h
  obtain ⟨genders, _, h⟩ := exceptBind_ok _ _ _ h
  simp only [pure, Except.pure, Except.ok.injEq] at h
  subst h
  intro r hr
  have h1 := List.mem_filter.mp hr
  have h2 := List.mem_filter.mp h1.1
  exact ⟨h2.2, h1.2⟩

theorem cleanAggressionRows_ok_ranges (t : Table) (rs : List AggressionRow)
    (h : cleanAggressionRows t = .ok rs) :
    ∀ r ∈ rs, hoursInRange r.gaming_hours_daily = true ∧
      ageInRange r.age = true := by
  unfold cleanAggressionRows at h
  obtain ⟨hoursRaw, _, h⟩ := exceptBind_ok _ _ _ h
  obtain ⟨genders, _, h⟩ := exceptBind_ok _ _ _ h
  simp only [pure, Except.pure, Except.ok.injEq] at h
  subst h
  intro r hr
  have h1 := List.mem_filter.mp hr
  have h2 := List.mem_filter.mp h1.1
  exact ⟨h2.2, h1.2⟩

theorem hoursInRange_elim (o : Option ℚ) (h : hoursInRange o = true) :
    ∃ q, o = some q ∧ 0 ≤ q ∧ q ≤ 24 := by
  cases o with
  | none => simp [hoursInRange] at h
  | some q =>
    simp only [hoursInRange, Bool.and_eq_true, decide_eq_true_eq] at h
    exact ⟨q, rfl, h.1, h.2⟩

/-- C3: every row surviving the survey cleaners' fill-default and
validation steps has `age ∈ [10, 99]` and `gaming_hours_daily ∈ [0, 24]`
in the output table, for both the anxiety and the aggression kinds. -/
theorem reconciled_rows_within_domains (rng : Rng) (t out : Table) :
    (clean_gaming_anxiety_data rng (some t) = some out →
      ∀ r ∈ out.rows, ∃ (a h : ℚ),
        r.lookup "age" = some (.num a) ∧ 10 ≤ a ∧ a ≤ 99 ∧
        r.lookup "gaming_hours_daily" = some (.num h) ∧ 0 ≤ h ∧ h ≤ 24) ∧
    (clean_gaming_aggression_data rng (some t) = some out →
      ∀ r ∈ out.rows, ∃ (a h : ℚ),
        r.lookup "age" = some (.num a) ∧ 10 ≤ a ∧ a ≤ 99 ∧
        r.lookup "gaming_hours_daily" = some (.num h) ∧ 0 ≤ h ∧ h ≤ 24) := by
  constructor
  · intro h r hr
    cases hrs : cleanAnxietyRows t with
    | error e =>
      simp only [clean_gaming_anxiety_data, hrs] at h
      exact absurd h (by simp)
    | ok rs =>
      simp only [clean_gaming_anxiety_data, hrs, Option.some.injEq] at h
      subst h
      simp only at hr
      obtain ⟨r0, hr0, rfl⟩ :=
        List.mem_map.mp (mem_of_mem_dedupByKeyAux _ _ _ _ hr)
      obtain ⟨hhr, har⟩ := cleanAnxietyRows_ok_ranges t rs hrs r0 hr0
      obtain ⟨q, hq, hq0, hq24⟩ := hoursInRange_elim _ hhr
      simp only [ageInRange, Bool.and_eq_true, decide_eq_true_eq] at har
      refine ⟨(r0.age : ℚ), q, ?_, ?_, ?_, ?_, hq0, hq24⟩
      · simp [anxietyRowToRow, List.lookup]
      · exact_mod_cast har.1
      · exact_mod_cast har.2
      · simp [anxietyRowToRow, List.lookup, hq, optQVal]
  · intro h r hr
    cases hrs : cleanAggressionRows t with
    | error e =>
      simp only [clean_gaming_aggression_data, hrs] at h
      exact absurd h (by simp)
    | ok rs =>
      simp only [clean_gaming_aggression_data, hrs, Option.some.injEq] at h
      subst h
      simp only at hr
      obtain ⟨r0, hr0, rfl⟩ :=
        List.mem_map.mp (mem_of_mem_dedupByKeyAux _ _ _ _ hr)
      obtain ⟨hhr, har⟩ := cleanAggressionRows_ok_ranges t rs hrs r0 hr0
      obtain ⟨q, hq, hq0, hq24⟩ := hoursInRange_elim _ hhr
      simp only [ageInRange, Bool.and_eq_true, decide_eq_true_eq] at har
      refine ⟨(r0.age : ℚ), q, ?_, ?_, ?_, ?_, hq0, hq24⟩
      · simp [aggressionRowToRow, List.lookup]
      · exact_mod_cast har.1
      · exact_mod_cast har.2
      · simp [aggressionRowToRow, List.lookup, hq, optQVal]

/-- Witness for C3 on a one-respondent survey file. -/
theorem reconciled_rows_within_domains_witness :
    ∃ (a h : ℚ),
      (List.lookup "age"
        [("age", Value.num 25), ("gaming_hours_daily", Value.num 4),
         ("gender", Value.str "unknown"), ("anxiety_score", Value.num 7)]) =
        some (.num a) ∧ 10 ≤ a ∧ a ≤ 99 ∧
      (List.lookup "gaming_hours_daily"
        [("age", Value.num 25), ("gaming_hours_daily", Value.num 4),
         ("gender", Value.str "unknown"), ("anxiety_score", Value.num 7)]) =
        some (.num h) ∧ 0 ≤ h ∧ h ≤ 24 :=
  (reconciled_rows_within_domains constRng smallSurveyInput
    { cols := ["age", "gaming_hours_daily", "gender", "anxiety_score"],
      rows := [[("age", Value.num 25), ("gaming_hours_daily", Value.num 4),
                ("gender", Value.str "unknown"), ("anxiety_score", Value.num 7)]] }).1
    (by decide) _ (by decide)

/-! ### C4: the two-respondent anxiety scenario -/

/-- C4 counterexample: on the spec's exact two-respondent anxiety source
the cleaner produces `gaming_hours_daily = 3` for the first respondent —
the anxiety cleaner extracts the first embedded integer of
`"more than 3 hours a day"`; the `more than 3 → 4.0` phrase table belongs
to the aggression cleaner only — and the output holds a single row: the
second respondent's defaulted row (age 22, hours = column median 3)
equals the first row and is removed by the final full-row
`drop_duplicates`. -/
theorem anxiety_scenario_counterexample :
    clean_gaming_anxiety_data constRng (some scenarioAnxietyInput) =
      some { cols := ["age", "gaming_hours_daily", "gender", "anxiety_score"],
             rows := [[("age", Value.num 22), ("gaming_hours_daily", Value.num 3),
                       ("gender", Value.str "unknown"),
                       ("anxiety_score", Value.num 7)]] } ∧
    (List.lookup "gaming_hours_daily"
      [("age", Value.num 22), ("gaming_hours_daily", Value.num 3),
       ("gender", Value.str "unknown"), ("anxiety_score", Value.num 7)]) =
      some (Value.num 3) ∧
    Value.num 3 ≠ Value.num 4 := by
  refine ⟨by decide, by decide, by decide⟩

/-- C4 amended: the first respondent reconciles to age 22 and
hours 3.0 (first embedded integer); the second is defaulted (age 22,
hours = median of the parsed hours, 3.0) rather than dropped by
validation — visible when a gender column makes the rows distinct — and
when the defaulted row coincides with another row it is removed by the
final full-row deduplication, not by validation. -/
theorem anxiety_scenario_amended :
    clean_gaming_anxiety_data constRng (some scenarioAnxietyGenderInput) =
      some { cols := ["age", "gaming_hours_daily", "gender", "anxiety_score"],
             rows := [[("age", Value.num 22), ("gaming_hours_daily", Value.num 3),
                       ("gender", Value.str "male"),
                       ("anxiety_score", Value.num 7)],
                      [("age", Value.num 22), ("gaming_hours_daily", Value.num 3),
                       ("gender", Value.str "female"),
                       ("anxiety_score", Value.num 7)]] } ∧
    clean_gaming_anxiety_data constRng (some scenarioAnxietyInput) =
      some { cols := ["age", "gaming_hours_daily", "gender", "anxiety_score"],
             rows := [[("age", Value.num 22), ("gaming_hours_daily", Value.num 3),
                       ("gender", Value.str "unknown"),
                       ("anxiety_score", Value.num 7)]] } := by
  refine ⟨by decide, by decide⟩

/-! ### C9: error granularity -/

/-- C9 counterexample: a type error raised while reconciling the hours
column (an all-numeric column's `.str` accessor) reaches the
function-level handler, which returns `None` for the entire dataset kind:
no row of the two-row batch appears in any output, contradicting
row-level recovery. -/
theorem anxiety_row_error_aborts_kind :
    clean_gaming_anxiety_data constRng (some numericHoursInput) = none ∧
    numericHoursInput.rows.length = 2 := by
  refine ⟨by decide, by decide⟩

/-- C9 amended: an unexpected parse/type error during reconciliation of
one dataset kind is caught by that kind's function-level handler, which
returns `None` for the whole kind — the entire batch is dropped, not just
one row's derived field — and does not propagate: the other dataset kinds
are still cleaned independently. -/
theorem kind_level_error_isolation :
    runSurveyCleaners constRng (some numericHoursInput) (some smallAggressionInput) =
      (none,
       some { cols := ["gaming_hours_daily", "age", "gender", "aggression_score"],
              rows := [[("gaming_hours_daily", Value.num 3), ("age", Value.num 21),
                        ("gender", Value.str "unknown"),
                        ("aggression_score", Value.num 30)]] }) := by
  decide

/-! ### C2: synthetic fallback -/

theorem toNat_ofNat_small (n : Nat) (h : n < 55296) : (Char.ofNat n).toNat = n := by
  have hv : Nat.isValidChar n := Or.inl h
  simp only [Char.ofNat, dif_pos hv]
  simp [Char.ofNatAux, Char.toNat, UInt32.toNat, BitVec.toNat_ofNatLt]

theorem padDigit_toNat (k : Nat) : (padDigit k).toNat = 48 + k % 10 := by
  have h : k % 10 < 10 := Nat.mod_lt _ (by norm_num)
  exact toNat_ofNat_small _ (by omega)

theorem pad4_inj {a b : Nat} (ha : a < 10000) (hb : b < 10000)
    (h : pad4 a = pad4 b) : a = b := by
  simp only [pad4, List.cons.injEq, and_true] at h
  obtain ⟨h1, h2, h3, h4⟩ := h
  have e1 := congrArg Char.toNat h1
  have e2 := congrArg Char.toNat h2
  have e3 := congrArg Char.toNat h3
  have e4 := congrArg Char.toNat h4
  rw [padDigit_toNat, padDigit_toNat] at e1 e2 e3 e4
  omega

theorem anxietySynthRows_nodup (rng : Rng) :
    (anxietySynthTable rng).rows.Nodup := by
  unfold anxietySynthTable
  refine List.Nodup.map_on ?_ (List.nodup_range 1000)
  intro i hi j hj hij
  rw [List.mem_range] at hi hj
  unfold anxietySynthRow at hij
  simp only [List.cons.injEq, Prod.mk.injEq, Value.str.injEq] at hij
  have hpd : pad4 (i + 1) = pad4 (j + 1) := by
    have h2 := congrArg String.data hij.1.2
    simpa using h2
  have := pad4_inj (by omega) (by omega) hpd
  omega

theorem aggressionSynthRows_nodup (rng : Rng) :
    (aggressionSynthTable rng).rows.Nodup := by
  unfold aggressionSynthTable
  refine List.Nodup.map_on ?_ (List.nodup_range 800)
  intro i hi j hj hij
  rw [List.mem_range] at hi hj
  unfold aggressionSynthRow at hij
  simp only [List.cons.injEq, Prod.mk.injEq, Value.str.injEq] at hij
  have hpd : pad4 (i + 1) = pad4 (j + 1) := by
    have h2 := congrArg String.data hij.1.2
    simpa using h2
  have := pad4_inj (by omega) (by omega) hpd
  omega

theorem dedupByKeyAux_id_of_nodup {α : Type} [DecidableEq α] :
    ∀ (l seen : List α), l.Nodup → (∀ x ∈ l, x ∉ seen) →
      dedupByKeyAux id seen l = l := by
  intro l
  induction l with
  | nil => intro seen _ _; rfl
  | cons x xs ih =>
    intro seen hnd hsn
    have hx : (id x) ∉ seen := hsn x (List.mem_cons_self _ _)
    simp only [dedupByKeyAux, if_neg hx]
    rw [ih (id x :: seen) (List.Nodup.of_cons hnd)]
    intro y hy
    simp only [List.mem_cons, id] at *
    push_neg
    constructor
    · intro he
      subst he
      exact (List.nodup_cons.mp hnd).1 hy
    · exact hsn y (Or.inr hy)

theorem dedupFirst_eq_self {α : Type} [DecidableEq α] (l : List α)
    (h : l.Nodup) : dedupFirst l = l :=
  dedupByKeyAux_id_of_nodup l [] h (by simp)

theorem npClip_between (q lo hi : ℚ) (h : lo ≤ hi) :
    lo ≤ npClip q lo hi ∧ npClip q lo hi ≤ hi :=
  ⟨le_min (le_max_right _ _) h, min_le_right _ _⟩

theorem astypeInt_between (q : ℚ) (lo hi : Int) (h0 : 0 ≤ lo)
    (h1 : (lo : ℚ) ≤ q) (h2 : q ≤ (hi : ℚ)) :
    lo ≤ astypeInt q ∧ astypeInt q ≤ hi := by
  have hq0 : (0 : ℚ) ≤ q := le_trans (by exact_mod_cast h0) h1
  unfold astypeInt
  rw [if_pos hq0]
  refine ⟨Int.le_floor.mpr h1, ?_⟩
  have := Int.floor_le_floor h2
  rwa [Int.floor_intCast] at this

theorem genderOptions_getD_mem (k : Nat) :
    genderOptions.getD (k % 3) "male" ∈ genderOptions := by
  have h : k % 3 = 0 ∨ k % 3 = 1 ∨ k % 3 = 2 := by omega
  rcases h with h | h | h <;> rw [h] <;> decide

theorem pad5_inj {a b : Nat} (ha : a < 100000) (hb : b < 100000)
    (h : pad5 a = pad5 b) : a = b := by
  simp only [pad5, List.cons.injEq, and_true] at h
  obtain ⟨h1, h2, h3, h4, h5⟩ := h
  have e1 := congrArg Char.toNat h1
  have e2 := congrArg Char.toNat h2
  have e3 := congrArg Char.toNat h3
  have e4 := congrArg Char.toNat h4
  have e5 := congrArg Char.toNat h5
  rw [padDigit_toNat, padDigit_toNat] at e1 e2 e3 e4 e5
  omega

theorem sevenScalesSynthRows_nodup (rng : Rng) :
    (sevenScalesSynthTable rng).rows.Nodup := by
  unfold sevenScalesSynthTable
  refine List.Nodup.map_on ?_ (List.nodup_range 1200)
  intro i hi j hj hij
  rw [List.mem_range] at hi hj
  unfold sevenScalesSynthRow at hij
  simp only [List.cons.injEq, Prod.mk.injEq, Value.str.injEq] at hij
  have hpd : pad4 (i + 1) = pad4 (j + 1) := by
    have h2 := congrArg String.data hij.1.2
    simpa using h2
  have := pad4_inj (by omega) (by omega) hpd
  omega

theorem wellbeingSynthRows_nodup (rng : Rng) :
    (wellbeingSynthTable rng).rows.Nodup := by
  unfold wellbeingSynthTable
  refine List.Nodup.map_on ?_ (List.nodup_range 1500)
  intro i hi j hj hij
  rw [List.mem_range] at hi hj
  unfold wellbeingSynthRow at hij
  simp only [List.cons.injEq, Prod.mk.injEq, Value.str.injEq] at hij
  have hpd : pad5 (i + 1) = pad5 (j + 1) := by
    have h2 := congrArg String.data hij.1.2
    simpa using h2
  have := pad5_inj (by omega) (by omega) hpd
  omega

theorem steamGamesSynthRows_nodup (rng : Rng) :
    (steamGamesSynthTable rng).rows.Nodup := by
  unfold steamGamesSynthTable
  refine List.Nodup.map_on ?_ (List.nodup_range 500)
  intro i hi j hj hij
  rw [List.mem_range] at hi hj
  unfold steamGamesSynthRow at hij
  simp only [List.cons.injEq, Prod.mk.injEq, Value.str.injEq] at hij
  have hpd : pad5 (i + 1) = pad5 (j + 1) := by
    have h2 := congrArg String.data hij.1.2
    simpa using h2
  have := pad5_inj (by omega) (by omega) hpd
  omega

theorem sevenScalesSynth_no_null (rng : Rng) :
    ∀ r ∈ (sevenScalesSynthTable rng).rows, ∀ p ∈ r, p.2 ≠ Value.null := by
  intro r hr p hp
  obtain ⟨i, _, rfl⟩ := List.mem_map.mp hr
  simp only [sevenScalesSynthRow, List.mem_cons, List.not_mem_nil,
    or_false] at hp
  rcases hp with rfl | rfl | rfl | rfl | rfl | rfl | rfl | rfl | rfl | rfl | rfl <;>
    simp

theorem wellbeingSynth_no_null (rng : Rng) :
    ∀ r ∈ (wellbeingSynthTable rng).rows, ∀ p ∈ r, p.2 ≠ Value.null := by
  intro r hr p hp
  obtain ⟨i, _, rfl⟩ := List.mem_map.mp hr
  simp only [wellbeingSynthRow, List.mem_cons, List.not_mem_nil,
    or_false] at hp
  rcases hp with rfl | rfl | rfl | rfl | rfl | rfl | rfl | rfl | rfl <;> simp

theorem steamGamesSynth_no_null (rng : Rng) :
    ∀ r ∈ (steamGamesSynthTable rng).rows, ∀ p ∈ r, p.2 ≠ Value.null := by
  intro r hr p hp
  obtain ⟨i, _, rfl⟩ := List.mem_map.mp hr
  simp only [steamGamesSynthRow, List.mem_cons, List.not_mem_nil,
    or_false] at hp
  rcases hp with rfl | rfl | rfl | rfl | rfl | rfl | rfl | rfl | rfl | rfl <;>
    simp

theorem mapPair_eq_self {α : Type} (f : α → α) (l : List α)
    (h : ∀ c ∈ l, f c = c) : l.map f = l := by
  induction l with
  | nil => rfl
  | cons x xs ih =>
    simp only [List.map_cons, h x (List.mem_cons_self _ _),
      ih (fun c hc => h c (List.mem_cons_of_mem _ hc))]

theorem fillnaNumericCols_of_no_null (t : Table)
    (h : ∀ r ∈ t.rows, ∀ p ∈ r, p.2 ≠ Value.null) :
    fillnaNumericCols t = t := by
  unfold fillnaNumericCols
  have hrows : t.rows.map (fun r => r.map (fun p =>
      if tableColumnNumeric t p.1 && p.2 == Value.null then
        (p.1, match numericMedian t p.1 with
              | some m => Value.num m
              | none => Value.null)
      else p)) = t.rows := by
    apply mapPair_eq_self
    intro r hr
    apply mapPair_eq_self
    intro p hp
    have hb : (p.2 == Value.null) = false :=
      beq_eq_false_iff_ne.mpr (h r hr p hp)
    simp [hb]
  rw [hrows]

theorem commonNumericClean_id (t : Table) (hnd : t.rows.Nodup)
    (hnn : ∀ r ∈ t.rows, ∀ p ∈ r, p.2 ≠ Value.null) :
    commonNumericClean t = t := by
  unfold commonNumericClean
  rw [dedupFirst_eq_self _ hnd]
  exact fillnaNumericCols_of_no_null t hnn

theorem getD_mem_of_lt {α : Type} :
    ∀ (l : List α) (n : Nat) (d : α), n < l.length → l.getD n d ∈ l := by
  intro l
  induction l with
  | nil => intro n d h; simp at h
  | cons x xs ih =>
    intro n d h
    cases n with
    | zero => simp [List.getD]
    | succ m =>
      simp only [List.getD_cons_succ]
      exact List.mem_cons_of_mem _ (ih m d (by simpa using h))

/-- C2 counterexample: the missing-file fallback returns a table whose
column set is exactly the five canonical data columns of the kind — there
is no flag/marker field of any name, nothing mentioning `synthetic`, in
any of the five kinds' synthetic schemas — so the synthetic result is not
distinguishable as synthetic by the caller. -/
theorem synthetic_fallback_not_flagged :
    ((clean_gaming_anxiety_data constRng none).map Table.cols =
      some (syntheticCols .anxiety)) ∧
    ((clean_gaming_aggression_data constRng none).map Table.cols =
      some (syntheticCols .aggression)) ∧
    (allKinds.all (fun k => (syntheticCols k).all
      (fun c => !(containsStr (lowerStr c) "synthetic"))) = true) ∧
    syntheticCols .anxiety =
      ["participant_id", "gaming_hours_daily", "anxiety_score", "age", "gender"] ∧
    syntheticCols .aggression =
      ["participant_id", "gaming_hours_daily", "aggression_score", "age", "gender"] := by
  refine ⟨rfl, rfl, by decide, by decide, by decide⟩

/-- C2 amended: for every supported dataset kind, when the source file is
absent the cleaner does not fail: it deterministically (as a function of
the seeded generator alone, seeds 42-46) returns the synthetic table of
the documented row count (1000/800/1200/1500/500) with the kind's
canonical columns and clipped value ranges — but carries no synthetic
flag of any kind. -/
theorem synthetic_fallback_contract (rng : Rng) :
    (∀ k, clean_dataset k rng none =
      some { cols := syntheticCols k, rows := (syntheticTable k rng).rows }) ∧
    (∀ k, (syntheticTable k rng).rows.length = syntheticRowCount k) ∧
    (∀ r ∈ (anxietySynthTable rng).rows, ∃ (h sc : ℚ) (a : Int) (g : String),
      r.lookup "gaming_hours_daily" = some (.num h) ∧ 1/10 ≤ h ∧ h ≤ 12 ∧
      r.lookup "anxiety_score" = some (.num sc) ∧ 1 ≤ sc ∧ sc ≤ 10 ∧
      r.lookup "age" = some (.num (a : ℚ)) ∧ 13 ≤ a ∧ a ≤ 65 ∧
      r.lookup "gender" = some (.str g) ∧ g ∈ genderOptions) ∧
    (∀ r ∈ (aggressionSynthTable rng).rows, ∃ (h sc : ℚ) (a : Int) (g : String),
      r.lookup "gaming_hours_daily" = some (.num h) ∧ 1/10 ≤ h ∧ h ≤ 12 ∧
      r.lookup "aggression_score" = some (.num sc) ∧ 5 ≤ sc ∧ sc ≤ 35 ∧
      r.lookup "age" = some (.num (a : ℚ)) ∧ 13 ≤ a ∧ a ≤ 65 ∧
      r.lookup "gender" = some (.str g) ∧ g ∈ genderOptions) ∧
    (∀ r ∈ (sevenScalesSynthTable rng).rows,
      ∃ (h q1 q2 q3 q4 q5 q6 q7 : ℚ) (a : Int) (g : String),
      r.lookup "gaming_hours_daily" = some (.num h) ∧ 1/10 ≤ h ∧ h ≤ 15 ∧
      r.lookup "openness_score" = some (.num q1) ∧ 1 ≤ q1 ∧ q1 ≤ 5 ∧
      r.lookup "conscientiousness_score" = some (.num q2) ∧ 1 ≤ q2 ∧ q2 ≤ 5 ∧
      r.lookup "extraversion_score" = some (.num q3) ∧ 1 ≤ q3 ∧ q3 ≤ 5 ∧
      r.lookup "agreeableness_score" = some (.num q4) ∧ 1 ≤ q4 ∧ q4 ≤ 5 ∧
      r.lookup "neuroticism_score" = some (.num q5) ∧ 1 ≤ q5 ∧ q5 ≤ 5 ∧
      r.lookup "gaming_addiction_score" = some (.num q6) ∧ 1 ≤ q6 ∧ q6 ≤ 5 ∧
      r.lookup "social_gaming_score" = some (.num q7) ∧ 1 ≤ q7 ∧ q7 ≤ 5 ∧
      r.lookup "age" = some (.num (a : ℚ)) ∧ 13 ≤ a ∧ a ≤ 65 ∧
      r.lookup "gaming_genre_preference" = some (.str g) ∧
        g ∈ genrePrefOptions) ∧
    (∀ r ∈ (wellbeingSynthTable rng).rows,
      ∃ (hp w st so ac se : ℚ) (a : Int) (g : String),
      r.lookup "hours_played" = some (.num hp) ∧ 1 ≤ hp ∧ hp ≤ 5000 ∧
      r.lookup "wellbeing_score" = some (.num w) ∧ 1 ≤ w ∧ w ≤ 10 ∧
      r.lookup "stress_level" = some (.num st) ∧ 1 ≤ st ∧ st ≤ 10 ∧
      r.lookup "social_connection_score" = some (.num so) ∧ 1 ≤ so ∧ so ≤ 10 ∧
      r.lookup "achievement_satisfaction" = some (.num ac) ∧ 1 ≤ ac ∧ ac ≤ 10 ∧
      r.lookup "gaming_session_length" = some (.num se) ∧ 1/2 ≤ se ∧ se ≤ 12 ∧
      r.lookup "age" = some (.num (a : ℚ)) ∧ 13 ≤ a ∧ a ≤ 65 ∧
      r.lookup "game_title" = some (.str g) ∧ g ∈ wellbeingGames) ∧
    (∀ r ∈ (steamGamesSynthTable rng).rows,
      ∃ (pr mc : ℚ) (pc : Int) (y : Nat) (ge dev : String) (b1 b2 : Bool),
      r.lookup "price" = some (.num pr) ∧ 0 ≤ pr ∧ pr ≤ 100 ∧
      r.lookup "metacritic_score" = some (.num mc) ∧ 30 ≤ mc ∧ mc ≤ 100 ∧
      r.lookup "player_count" = some (.num (pc : ℚ)) ∧
        100 ≤ pc ∧ pc ≤ 1000000 ∧
      r.lookup "release_year" = some (.num (y : ℚ)) ∧ 2010 ≤ y ∧ y ≤ 2023 ∧
      r.lookup "genre" = some (.str ge) ∧ ge ∈ steamGenreOptions ∧
      r.lookup "developer" = some (.str dev) ∧ dev ∈ steamDeveloperOptions ∧
      r.lookup "is_multiplayer" = some (.bool b1) ∧
      r.lookup "has_microtransactions" = some (.bool b2)) := by
  refine ⟨?_, ?_, ?_, ?_, ?_, ?_, ?_⟩
  · intro k
    cases k with
    | anxiety =>
      show some _ = some _
      rw [dedupFirst_eq_self _ (anxietySynthRows_nodup rng)]
      rfl
    | aggression =>
      show some _ = some _
      rw [dedupFirst_eq_self _ (aggressionSynthRows_nodup rng)]
      rfl
    | sevenScales =>
      show some (commonNumericClean (sevenScalesSynthTable rng)) = _
      rw [commonNumericClean_id _ (sevenScalesSynthRows_nodup rng)
        (sevenScalesSynth_no_null rng)]
      rfl
    | wellbeing =>
      show some (commonNumericClean (wellbeingSynthTable rng)) = _
      rw [commonNumericClean_id _ (wellbeingSynthRows_nodup rng)
        (wellbeingSynth_no_null rng)]
      rfl
    | steamGames =>
      show some (commonNumericClean (steamGamesSynthTable rng)) = _
      rw [commonNumericClean_id _ (steamGamesSynthRows_nodup rng)
        (steamGamesSynth_no_null rng)]
      rfl
  · intro k
    cases k <;>
      simp [syntheticTable, syntheticRowCount, anxietySynthTable,
        aggressionSynthTable, sevenScalesSynthTable, wellbeingSynthTable,
        steamGamesSynthTable]
  · intro r hr
    obtain ⟨i, hi, rfl⟩ := List.mem_map.mp hr
    refine ⟨npClip (rng.lognormal 42 1 (1/2) i) (1/10) 12,
      npClip (rng.normal 42 (9/2) 2 i) 1 10,
      astypeInt (npClip (rng.normal 42 25 8 i) 13 65),
      genderOptions.getD (rng.choice 42 3 i % 3) "male",
      rfl,
      (npClip_between _ _ _ (by norm_num)).1,
      (npClip_between _ _ _ (by norm_num)).2,
      rfl,
      (npClip_between _ _ _ (by norm_num)).1,
      (npClip_between _ _ _ (by norm_num)).2,
      rfl,
      (astypeInt_between _ 13 65 (by norm_num)
        (npClip_between _ _ _ (by norm_num)).1
        (npClip_between _ _ _ (by norm_num)).2).1,
      (astypeInt_between _ 13 65 (by norm_num)
        (npClip_between _ _ _ (by norm_num)).1
        (npClip_between _ _ _ (by norm_num)).2).2,
      rfl,
      genderOptions_getD_mem _⟩
  · intro r hr
    obtain ⟨i, hi, rfl⟩ := List.mem_map.mp hr
    refine ⟨npClip (rng.lognormal 43 (6/5) (3/5) i) (1/10) 12,
      npClip (rng.normal 43 15 5 i) 5 35,
      astypeInt (npClip (rng.normal 43 23 7 i) 13 65),
      genderOptions.getD (rng.choice 43 3 i % 3) "male",
      rfl,
      (npClip_between _ _ _ (by norm_num)).1,
      (npClip_between _ _ _ (by norm_num)).2,
      rfl,
      (npClip_between _ _ _ (by norm_num)).1,
      (npClip_between _ _ _ (by norm_num)).2,
      rfl,
      (astypeInt_between _ 13 65 (by norm_num)
        (npClip_between _ _ _ (by norm_num)).1
        (npClip_between _ _ _ (by norm_num)).2).1,
      (astypeInt_between _ 13 65 (by norm_num)
        (npClip_between _ _ _ (by norm_num)).1
        (npClip_between _ _ _ (by norm_num)).2).2,
      rfl,
      genderOptions_getD_mem _⟩
  · intro r hr
    obtain ⟨i, hi, rfl⟩ := List.mem_map.mp hr
    refine ⟨npClip (rng.lognormal 44 (11/10) (7/10) i) (1/10) 15,
      npClip (rng.normal 44 (7/2) (4/5) i) 1 5,
      npClip (rng.normal 44 (16/5) (9/10) i) 1 5,
      npClip (rng.normal 44 3 1 i) 1 5,
      npClip (rng.normal 44 (19/5) (7/10) i) 1 5,
      npClip (rng.normal 44 (14/5) (11/10) i) 1 5,
      npClip (rng.normal 44 (5/2) (6/5) i) 1 5,
      npClip (rng.normal 44 (31/10) 1 i) 1 5,
      astypeInt (npClip (rng.normal 44 26 9 i) 13 65),
      genrePrefOptions.getD (rng.choice 44 5 i % 5) "Action",
      rfl,
      (npClip_between _ _ _ (by norm_num)).1,
      (npClip_between _ _ _ (by norm_num)).2,
      rfl,
      (npClip_between _ _ _ (by norm_num)).1,
      (npClip_between _ _ _ (by norm_num)).2,
      rfl,
      (npClip_between _ _ _ (by norm_num)).1,
      (npClip_between _ _ _ (by norm_num)).2,
      rfl,
      (npClip_between _ _ _ (by norm_num)).1,
      (npClip_between _ _ _ (by norm_num)).2,
      rfl,
      (npClip_between _ _ _ (by norm_num)).1,
      (npClip_between _ _ _ (by norm_num)).2,
      rfl,
      (npClip_between _ _ _ (by norm_num)).1,
      (npClip_between _ _ _ (by norm_num)).2,
      rfl,
      (npClip_between _ _ _ (by norm_num)).1,
      (npClip_between _ _ _ (by norm_num)).2,
      rfl,
      (npClip_between _ _ _ (by norm_num)).1,
      (npClip_between _ _ _ (by norm_num)).2,
      rfl,
      (astypeInt_between _ 13 65 (by norm_num)
        (npClip_between _ _ _ (by norm_num)).1
        (npClip_between _ _ _ (by norm_num)).2).1,
      (astypeInt_between _ 13 65 (by norm_num)
        (npClip_between _ _ _ (by norm_num)).1
        (npClip_between _ _ _ (by norm_num)).2).2,
      rfl,
      getD_mem_of_lt _ _ _ (by
        have hm : rng.choice 44 5 i % 5 < 5 := Nat.mod_lt _ (by norm_num)
        simpa [genrePrefOptions] using hm)⟩
  · intro r hr
    obtain ⟨i, hi, rfl⟩ := List.mem_map.mp hr
    refine ⟨npClip (rng.lognormal 45 4 (3/2) i) 1 5000,
      npClip (rng.normal 45 (13/2) 2 i) 1 10,
      npClip (rng.normal 45 (21/5) (9/5) i) 1 10,
      npClip (rng.normal 45 (29/5) (3/2) i) 1 10,
      npClip (rng.normal 45 6 (17/10) i) 1 10,
      npClip (rng.lognormal 45 (3/2) (4/5) i) (1/2) 12,
      astypeInt (npClip (rng.normal 45 24 6 i) 13 65),
      wellbeingGames.getD (rng.choice 45 10 i % 10) "Minecraft",
      rfl,
      (npClip_between _ _ _ (by norm_num)).1,
      (npClip_between _ _ _ (by norm_num)).2,
      rfl,
      (npClip_between _ _ _ (by norm_num)).1,
      (npClip_between _ _ _ (by norm_num)).2,
      rfl,
      (npClip_between _ _ _ (by norm_num)).1,
      (npClip_between _ _ _ (by norm_num)).2,
      rfl,
      (npClip_between _ _ _ (by norm_num)).1,
      (npClip_between _ _ _ (by norm_num)).2,
      rfl,
      (npClip_between _ _ _ (by norm_num)).1,
      (npClip_between _ _ _ (by norm_num)).2,
      rfl,
      (npClip_between _ _ _ (by norm_num)).1,
      (npClip_between _ _ _ (by norm_num)).2,
      rfl,
      (astypeInt_between _ 13 65 (by norm_num)
        (npClip_between _ _ _ (by norm_num)).1
        (npClip_between _ _ _ (by norm_num)).2).1,
      (astypeInt_between _ 13 65 (by norm_num)
        (npClip_between _ _ _ (by norm_num)).1
        (npClip_between _ _ _ (by norm_num)).2).2,
      rfl,
      getD_mem_of_lt _ _ _ (by
        have hm : rng.choice 45 10 i % 10 < 10 := Nat.mod_lt _ (by norm_num)
        simpa [wellbeingGames] using hm)⟩
  · intro r hr
    obtain ⟨i, hi, rfl⟩ := List.mem_map.mp hr
    refine ⟨npClip (rng.lognormal 46 3 1 i) 0 100,
      npClip (rng.normal 46 75 15 i) 30 100,
      astypeInt (npClip (rng.lognormal 46 8 2 i) 100 1000000),
      2010 + rng.choice 46 14 i % 14,
      steamGenreOptions.getD (rng.choice 46 8 i % 8) "Action",
      steamDeveloperOptions.getD (rng.choice 46 7 i % 7) "Valve",
      boolOptions.getD (rng.choice 46 2 i % 2) true,
      boolOptions.getD (rng.choice 46 2 (500 + i) % 2) true,
      rfl,
      (npClip_between _ _ _ (by norm_num)).1,
      (npClip_between _ _ _ (by norm_num)).2,
      rfl,
      (npClip_between _ _ _ (by norm_num)).1,
      (npClip_between _ _ _ (by norm_num)).2,
      rfl,
      (astypeInt_between _ 100 1000000 (by norm_num)
        (npClip_between _ _ _ (by norm_num)).1
        (npClip_between _ _ _ (by norm_num)).2).1,
      (astypeInt_between _ 100 1000000 (by norm_num)
        (npClip_between _ _ _ (by norm_num)).1
        (npClip_between _ _ _ (by norm_num)).2).2,
      rfl,
      Nat.le_add_right _ _,
      (by
        have hm : rng.choice 46 14 i % 14 < 14 := Nat.mod_lt _ (by norm_num)
        omega),
      rfl,
      getD_mem_of_lt _ _ _ (by
        have hm : rng.choice 46 8 i % 8 < 8 := Nat.mod_lt _ (by norm_num)
        simpa [steamGenreOptions] using hm),
      rfl,
      getD_mem_of_lt _ _ _ (by
        have hm : rng.choice 46 7 i % 7 < 7 := Nat.mod_lt _ (by norm_num)
        simpa [steamDeveloperOptions] using hm),
      rfl,
      rfl⟩

/-- Witness for C2 at the all-zero generator and the first synthetic rows
of the anxiety and Steam-games kinds. -/
theorem synthetic_fallback_contract_witness :
    (∃ (h sc : ℚ) (a : Int) (g : String),
      (anxietySynthRow constRng 0).lookup "gaming_hours_daily" =
        some (.num h) ∧ 1/10 ≤ h ∧ h ≤ 12 ∧
      (anxietySynthRow constRng 0).lookup "anxiety_score" =
        some (.num sc) ∧ 1 ≤ sc ∧ sc ≤ 10 ∧
      (anxietySynthRow constRng 0).lookup "age" =
        some (.num (a : ℚ)) ∧ 13 ≤ a ∧ a ≤ 65 ∧
      (anxietySynthRow constRng 0).lookup "gender" =
        some (.str g) ∧ g ∈ genderOptions) ∧
    (∃ (pr mc : ℚ) (pc : Int) (y : Nat) (ge dev : String) (b1 b2 : Bool),
      (steamGamesSynthRow constRng 0).lookup "price" =
        some (.num pr) ∧ 0 ≤ pr ∧ pr ≤ 100 ∧
      (steamGamesSynthRow constRng 0).lookup "metacritic_score" =
        some (.num mc) ∧ 30 ≤ mc ∧ mc ≤ 100 ∧
      (steamGamesSynthRow constRng 0).lookup "player_count" =
        some (.num (pc : ℚ)) ∧ 100 ≤ pc ∧ pc ≤ 1000000 ∧
      (steamGamesSynthRow constRng 0).lookup "release_year" =
        some (.num (y : ℚ)) ∧ 2010 ≤ y ∧ y ≤ 2023 ∧
      (steamGamesSynthRow constRng 0).lookup "genre" =
        some (.str ge) ∧ ge ∈ steamGenreOptions ∧
      (steamGamesSynthRow constRng 0).lookup "developer" =
        some (.str dev) ∧ dev ∈ steamDeveloperOptions ∧
      (steamGamesSynthRow constRng 0).lookup "is_multiplayer" =
        some (.bool b1) ∧
      (steamGamesSynthRow constRng 0).lookup "has_microtransactions" =
        some (.bool b2)) :=
  ⟨(synthetic_fallback_contract constRng).2.2.1 (anxietySynthRow constRng 0)
    (List.mem_map_of_mem _ (List.mem_range.mpr (by norm_num))),
   (synthetic_fallback_contract constRng).2.2.2.2.2.2
    (steamGamesSynthRow constRng 0)
    (List.mem_map_of_mem _ (List.mem_range.mpr (by norm_num)))⟩

/-! ### C5: title normalization -/

theorem lowerChar_lowerChar (c : Char) :
    lowerChar (lowerChar c) = lowerChar c := by
  unfold lowerChar
  split
  · have h1 : (Char.ofNat (c.toNat + 32)).toNat = c.toNat + 32 := by
      apply toNat_ofNat_small
      omega
    rw [if_neg]
    omega
  · rfl

theorem mem_collapseWsAux :
    ∀ (l : List Char) (b : Bool) (c : Char),
      c ∈ collapseWsAux b l → c = ' ' ∨ c ∈ l := by
  intro l
  induction l with
  | nil => intro b c hc; simp [collapseWsAux] at hc
  | cons x xs ih =>
    intro b c hc
    simp only [collapseWsAux] at hc
    split at hc
    · split at hc
      · rcases ih _ _ hc with h | h
        · exact Or.inl h
        · exact Or.inr (List.mem_cons_of_mem _ h)
      · rcases List.mem_cons.mp hc with rfl | h
        · exact Or.inl rfl
        · rcases ih _ _ h with h2 | h2
          · exact Or.inl h2
          · exact Or.inr (List.mem_cons_of_mem _ h2)
    · rcases List.mem_cons.mp hc with rfl | h
      · exact Or.inr (List.mem_cons_self _ _)
      · rcases ih _ _ h with h2 | h2
        · exact Or.inl h2
        · exact Or.inr (List.mem_cons_of_mem _ h2)

theorem wsSpace_collapseWsAux :
    ∀ (l : List Char) (b : Bool) (c : Char),
      c ∈ collapseWsAux b l → isWsChar c = true → c = ' ' := by
  intro l
  induction l with
  | nil => intro b c hc _; simp [collapseWsAux] at hc
  | cons x xs ih =>
    intro b c hc hw
    simp only [collapseWsAux] at hc
    split at hc
    · split at hc
      · exact ih _ _ hc hw
      · rcases List.mem_cons.mp hc with rfl | h
        · rfl
        · exact ih _ _ h hw
    · rcases List.mem_cons.mp hc with rfl | h
      · rename_i hx
        exact absurd hw hx
      · exact ih _ _ h hw

theorem NA_collapseWsAux :
    ∀ (l : List Char) (b : Bool),
      NoAdjWs (collapseWsAux b l) ∧
      (b = true → headWs (collapseWsAux b l) = false) := by
  intro l
  induction l with
  | nil => intro b; exact ⟨List.chain'_nil, fun _ => rfl⟩
  | cons x xs ih =>
    intro b
    simp only [collapseWsAux]
    split
    · rename_i hx
      split
      · exact ⟨(ih true).1, fun _ => (ih true).2 rfl⟩
      · rename_i hb
        refine ⟨?_, fun hbb => absurd hbb hb⟩
        unfold NoAdjWs
        rw [List.chain'_cons']
        refine ⟨?_, (ih true).1⟩
        intro y hy
        have hh := (ih true).2 rfl
        cases haux : collapseWsAux true xs with
        | nil => rw [haux] at hy; simp at hy
        | cons z zs =>
          rw [haux] at hy
          simp only [List.head?_cons, Option.mem_def, Option.some.injEq] at hy
          subst hy
          rw [haux] at hh
          simp only [headWs] at hh
          intro hcon
          rw [hcon.2] at hh
          exact Bool.true_eq_false.mp hh
    · rename_i hx
      refine ⟨?_, ?_⟩
      · unfold NoAdjWs
        rw [List.chain'_cons']
        refine ⟨?_, (ih false).1⟩
        intro y _ hcon
        exact hx hcon.1
      · intro _
        simp only [headWs]
        exact Bool.not_eq_true _ |>.mp hx

theorem collapseWsAux_fix :
    ∀ (l : List Char),
      (∀ c ∈ l, isWsChar c = true → c = ' ') → NoAdjWs l →
      (collapseWsAux false l = l ∧
        (headWs l = false → collapseWsAux true l = l)) := by
  intro l
  induction l with
  | nil => intro _ _; exact ⟨rfl, fun _ => rfl⟩
  | cons x xs ih =>
    intro hws hna
    have hna' := List.chain'_cons'.mp hna
    have ihx := ih (fun c hc hw => hws c (List.mem_cons_of_mem _ hc) hw) hna'.2
    by_cases hx : isWsChar x = true
    · have hxsp : x = ' ' := hws x (List.mem_cons_self _ _) hx
      have hhxs : headWs xs = false := by
        cases xs with
        | nil => rfl
        | cons z zs =>
          have hrel := hna'.1 z (by simp)
          simp only [headWs]
          cases hzb : isWsChar z with
          | false => rfl
          | true => exact absurd ⟨hx, hzb⟩ hrel
      constructor
      · simp only [collapseWsAux, if_pos hx]
        simp only [Bool.false_eq_true, if_false]
        rw [ihx.2 hhxs, hxsp]
      · intro hhead
        simp only [headWs, hx] at hhead
        exact absurd hhead (by decide)
    · constructor
      · simp only [collapseWsAux, if_neg hx]
        rw [ihx.1]
      · intro _
        simp only [collapseWsAux, if_neg hx]
        rw [ihx.1]

theorem headWs_dropWhile (l : List Char) :
    headWs (l.dropWhile isWsChar) = false := by
  induction l with
  | nil => rfl
  | cons x xs ih =>
    cases hxb : isWsChar x with
    | true => simpa [List.dropWhile_cons, hxb] using ih
    | false => simp [List.dropWhile_cons, hxb, headWs]

theorem dropWhile_of_headWs (l : List Char) (h : headWs l = false) :
    l.dropWhile isWsChar = l := by
  cases l with
  | nil => rfl
  | cons x xs =>
    simp only [headWs] at h
    simp [List.dropWhile_cons, h]

theorem stripWs_of_heads (l : List Char) (h1 : headWs l = false)
    (h2 : headWs l.reverse = false) : stripWs l = l := by
  unfold stripWs
  rw [dropWhile_of_headWs l h1, dropWhile_of_headWs l.reverse h2,
    List.reverse_reverse]

theorem mem_dropWhile (c : Char) (p : Char → Bool) :
    ∀ (l : List Char), c ∈ l.dropWhile p → c ∈ l := by
  intro l
  induction l with
  | nil => intro h; simp at h
  | cons x xs ih =>
    intro h
    cases hx : p x with
    | true =>
      rw [List.dropWhile_cons, if_pos hx] at h
      exact List.mem_cons_of_mem _ (ih h)
    | false =>
      rw [List.dropWhile_cons, if_neg (by simp [hx])] at h
      exact h

theorem mem_stripWs (c : Char) (l : List Char) (h : c ∈ stripWs l) :
    c ∈ l := by
  unfold stripWs at h
  rw [List.mem_reverse] at h
  have h2 := mem_dropWhile _ _ _ h
  rw [List.mem_reverse] at h2
  exact mem_dropWhile _ _ _ h2

theorem headWs_stripWs (l : List Char) :
    headWs (stripWs l) = false ∧ headWs (stripWs l).reverse = false := by
  constructor
  · unfold stripWs
    have hm : headWs (l.dropWhile isWsChar) = false := headWs_dropWhile l
    set m := l.dropWhile isWsChar with hmdef
    have hdec := List.takeWhile_append_dropWhile (p := isWsChar) (l := m.reverse)
    set X := m.reverse.dropWhile isWsChar with hX
    have hm2 : m = X.reverse ++ (m.reverse.takeWhile isWsChar).reverse := by
      calc m = m.reverse.reverse := (List.reverse_reverse m).symm
        _ = (m.reverse.takeWhile isWsChar ++ X).reverse := by rw [hdec]
        _ = X.reverse ++ (m.reverse.takeWhile isWsChar).reverse := by
            rw [List.reverse_append]
    cases hXr : X.reverse with
    | nil => rfl
    | cons z zs =>
      rw [hXr] at hm2
      rw [hm2] at hm
      simp only [List.cons_append, headWs] at hm
      simp only [headWs]
      exact hm
  · unfold stripWs
    rw [List.reverse_reverse]
    exact headWs_dropWhile _

theorem NoAdjWs_dropWhile (p : Char → Bool) :
    ∀ (l : List Char), NoAdjWs l → NoAdjWs (l.dropWhile p) := by
  intro l
  induction l with
  | nil => intro h; simpa using h
  | cons x xs ih =>
    intro h
    cases hx : p x with
    | false =>
      rw [List.dropWhile_cons, if_neg (by simp [hx])]
      exact h
    | true =>
      rw [List.dropWhile_cons, if_pos hx]
      exact ih (List.chain'_cons'.mp h).2

theorem NoAdjWs_reverse (l : List Char) (h : NoAdjWs l) :
    NoAdjWs l.reverse := by
  unfold NoAdjWs at *
  rw [List.chain'_reverse]
  exact h.imp (fun a b hab => fun hc => hab ⟨hc.2, hc.1⟩)

theorem NoAdjWs_stripWs (l : List Char) (h : NoAdjWs l) :
    NoAdjWs (stripWs l) := by
  unfold stripWs
  exact NoAdjWs_reverse _ (NoAdjWs_dropWhile _ _
    (NoAdjWs_reverse _ (NoAdjWs_dropWhile _ _ h)))

theorem map_eq_self {α : Type} (f : α → α) :
    ∀ (l : List α), (∀ c ∈ l, f c = c) → l.map f = l := by
  intro l
  induction l with
  | nil => intro _; rfl
  | cons x xs ih =>
    intro h
    simp only [List.map_cons, h x (List.mem_cons_self _ _),
      ih (fun c hc => h c (List.mem_cons_of_mem _ hc))]

theorem normalize_titles_idem_helper (t : Option String) :
    normalize_game_titles (some (normalize_game_titles t)) =
      normalize_game_titles t := by
  have key : ∀ (d : List Char),
      stripWs (collapseWs (((stripWs (collapseWs ((d.map lowerChar).filter
        keepChar))).map lowerChar).filter keepChar)) =
      stripWs (collapseWs ((d.map lowerChar).filter keepChar)) := by
    intro d
    set u := stripWs (collapseWs ((d.map lowerChar).filter keepChar)) with hu
    have humem : ∀ c ∈ u, c = ' ' ∨ c ∈ (d.map lowerChar).filter keepChar := by
      intro c hc
      exact mem_collapseWsAux _ _ _ (mem_stripWs _ _ hc)
    have F1 : ∀ c ∈ u, lowerChar c = c := by
      intro c hc
      rcases humem c hc with rfl | h2
      · decide
      · obtain ⟨x, _, rfl⟩ := List.mem_map.mp (List.mem_filter.mp h2).1
        exact lowerChar_lowerChar x
    have F2 : ∀ c ∈ u, keepChar c = true := by
      intro c hc
      rcases humem c hc with rfl | h2
      · decide
      · exact (List.mem_filter.mp h2).2
    have F3 : ∀ c ∈ u, isWsChar c = true → c = ' ' := by
      intro c hc hw
      exact wsSpace_collapseWsAux _ _ _ (mem_stripWs _ _ hc) hw
    have F4 : NoAdjWs u :=
      NoAdjWs_stripWs _ (NA_collapseWsAux _ false).1
    have F5 := headWs_stripWs (collapseWs ((d.map lowerChar).filter keepChar))
    rw [map_eq_self _ _ F1, List.filter_eq_self.mpr F2]
    rw [show collapseWs u = u from (collapseWsAux_fix u F3 F4).1]
    exact stripWs_of_heads u F5.1 F5.2
  cases t with
  | none =>
    show normalize_game_titles (some "") = ""
    rfl
  | some s =>
    show String.mk _ = String.mk _
    exact congrArg String.mk (key s.data)

/-- C5 counterexample: `re.sub(r'[^\w\s]', '', ·)` deletes punctuation
outright rather than blanking it, so the hyphen of `"Half-Life 2!"` is
removed and the two sides of the spec's example normalize differently:
`"halflife 2"` versus `"half life 2"`. -/
theorem normalize_title_example_counterexample :
    normalize_game_titles (some "Half-Life 2!") = "halflife 2" ∧
    normalize_game_titles (some "half life 2") = "half life 2" ∧
    normalize_game_titles (some "Half-Life 2!") ≠
      normalize_game_titles (some "half life 2") := by
  refine ⟨by decide, by decide, by decide⟩

/-- C5 amended: game-title normalization (lowercase, delete punctuation,
collapse whitespace, strip) is idempotent for every title, and is
case-insensitive — `"HALF LIFE 2"` and `"half life 2"` normalize
equally — but punctuation is deleted, not replaced by a space, so
`"Half-Life 2!"` normalizes to the same string as `"halflife 2"`, not as
`"half life 2"`. -/
theorem normalize_idem_and_insensitive :
    (∀ t : Option String,
      normalize_game_titles (some (normalize_game_titles t)) =
        normalize_game_titles t) ∧
    normalize_game_titles (some "HALF LIFE 2") =
      normalize_game_titles (some "half life 2") ∧
    normalize_game_titles (some "Half-Life 2!") =
      normalize_game_titles (some "halflife 2") := by
  refine ⟨normalize_titles_idem_helper, by decide, by decide⟩

end RespawnMetrics
